import Mathlib

/-!
Verification of `packages/astro-image-service-ng/src/service/index.ts`.

The service's option-handling functions are shallowly embedded here:

* JavaScript numbers are idealised as rationals (`ℚ`).  `NaN` is kept out of
  the input option records (it is not a value a caller meaningfully passes)
  but is modelled, where the code can produce it, as `none` in an
  `Option ℚ`; `Infinity` appears only as the `maxWidth` bound in
  `getSrcSet` and is modelled as the `none` case of an `Option ℚ` bound.
  JavaScript renders numbers with the shortest round-tripping decimal; the
  model renders integers exactly and non-integers as integer part, a dot
  and up to 20 fraction digits, which agrees with JavaScript on every value
  the claims exercise (exponent notation for huge or tiny magnitudes is not
  modelled).
* `URLSearchParams` percent-encodes parameter values on serialisation and
  decodes them on parsing, so a query string is modelled losslessly as an
  association list of key/value pairs; `get` returns the first match.
* Fallible code returns `Except`/`Option`; a JavaScript `throw` of an
  `AstroError` is the `ServiceError.astro` case, the un-caught `TypeError`
  of the `new URL(...)` constructor in `validateOptions` (reached through
  a `resolveURL` oracle that returns `none` exactly where the WHATWG
  constructor throws) is the `ServiceError.typeError` case, and the
  `assert.ok` call is the `ServiceError.assertionFailure` case, so claims
  about which errors are raised are statements about the program.
-/

/-- `Math.round x` is `⌊x + 1/2⌋`.  It is computed as a floor division so
that the kernel can evaluate it on concrete rationals:
`⌊q + 1/2⌋ = (2 * q.num + q.den).fdiv (2 * q.den)`. -/
def jsRound (q : ℚ) : ℤ := (2 * q.num + q.den).fdiv (2 * q.den)

/-- The character for a decimal digit `d < 10`. -/
def digitChar (d : ℕ) : Char := Char.ofNat (48 + d)

/-- Decimal digit test, as in the character classes used by
`Number.parseInt` / `Number.parseFloat`. -/
def isDigitCh (c : Char) : Bool := decide (48 ≤ c.toNat ∧ c.toNat ≤ 57)

/-- Numeric value of a decimal digit character. -/
def digitVal (c : Char) : ℕ := c.toNat - 48

/-- Little-endian decimal digits of `n`, with explicit fuel so that the
kernel can evaluate it (`fuel = n` always suffices). -/
def toDigitsLE (fuel : ℕ) (n : ℕ) : List ℕ :=
  match fuel with
  | 0 => []
  | f + 1 => if n = 0 then [] else n % 10 :: toDigitsLE f (n / 10)

/-- Value of a little-endian digit list. -/
def ofDigitsLE (l : List ℕ) : ℕ := l.foldr (fun d r => d + 10 * r) 0

/-- Decimal rendering of a natural number, as JavaScript's `${n}`. -/
def natToString (n : ℕ) : String :=
  if n = 0 then "0" else ⟨((toDigitsLE n n).reverse).map digitChar⟩

/-- Decimal rendering of an integer, as JavaScript's `${i}`. -/
def intToString (i : ℤ) : String :=
  if i < 0 then "-" ++ natToString i.natAbs else natToString i.natAbs

/-- Fraction digits of `num / den` by long division, up to `fuel` digits
(JavaScript prints the shortest round-tripping decimal; only the integer
part and the presence of the dot matter to the claims). -/
def fracDigitsAux (den : ℕ) : ℕ → ℕ → List Char
  | 0, _ => []
  | f + 1, num =>
    if num = 0 then [] else digitChar (num * 10 / den) :: fracDigitsAux den f (num * 10 % den)

/-- JavaScript template-literal rendering `${q}` of a number: integers as
plain decimals, non-integers as truncated integer part, a dot, and the
fraction digits. -/
def jsNumToString (q : ℚ) : String :=
  if q.den = 1 then intToString q.num
  else
    (if q.num < 0 then "-" else "")
      ++ natToString (q.num.natAbs / q.den) ++ "."
      ++ ⟨fracDigitsAux q.den 20 (q.num.natAbs % q.den)⟩

/-- The leading run of decimal digits of a character list, as consumed by
`Number.parseInt(s, 10)`; `none` when there is no digit (`NaN`). -/
def parseLeadingDigits (l : List Char) : Option ℕ :=
  if (l.takeWhile isDigitCh).isEmpty then none
  else some ((l.takeWhile isDigitCh).foldl (fun a c => 10 * a + digitVal c) 0)

/-- Body of `Number.parseInt(s, 10)` over the character list of `s`. -/
def jsParseIntAux : List Char → Option ℤ
  | [] => none
  | c :: cs =>
    if c = '-' then (parseLeadingDigits cs).map (fun n => -(Int.ofNat n))
    else if c = '+' then (parseLeadingDigits cs).map Int.ofNat
    else (parseLeadingDigits (c :: cs)).map Int.ofNat

/-- `Number.parseInt(s, 10)`: optional sign then a leading digit run;
`none` models `NaN`.  (Leading-whitespace skipping is not modelled; no
claim exercises it.) -/
def jsParseInt (s : String) : Option ℤ := jsParseIntAux s.data

/-- Magnitude accepted by `Number.parseFloat`: digits, an optional dot and
further digits; `none` when no digit is found (`NaN`).  (Exponent suffixes
and `Infinity` are not modelled; no claim exercises them.) -/
def parseFloatBody (l : List Char) : Option ℚ :=
  let intDs := l.takeWhile isDigitCh
  let tail := l.drop intDs.length
  let fracDs := match tail with
    | '.' :: r => r.takeWhile isDigitCh
    | _ => []
  if intDs.isEmpty ∧ fracDs.isEmpty then none
  else
    some ((intDs.foldl (fun a c => 10 * a + digitVal c) 0 : ℕ)
      + (fracDs.foldl (fun a c => 10 * a + digitVal c) 0 : ℕ) / (10 ^ fracDs.length : ℚ))

/-- Body of `Number.parseFloat(s)` over the character list of `s`. -/
def jsParseFloatAux : List Char → Option ℚ
  | [] => none
  | c :: cs =>
    if c = '-' then (parseFloatBody cs).map Neg.neg
    else if c = '+' then parseFloatBody cs
    else parseFloatBody (c :: cs)

/-- `Number.parseFloat(s)`: optional sign then `parseFloatBody`. -/
def jsParseFloat (s : String) : Option ℚ := jsParseFloatAux s.data

/-- Lexicographic comparison of character lists by code point, i.e. the
ordering JavaScript's default `Array.prototype.sort` comparator induces on
the string forms of the elements. -/
def charListLe : List Char → List Char → Bool
  | [], _ => true
  | _ :: _, [] => false
  | a :: as, b :: bs =>
    if a.toNat < b.toNat then true
    else if b.toNat < a.toNat then false
    else charListLe as bs

/-- String comparison used by the default `sort()` comparator. -/
def strLe (a b : String) : Bool := charListLe a.data b.data

/-! ### Evaluation and round-trip lemmas for the number model -/

theorem jsRound_eq_floor (q : ℚ) : jsRound q = ⌊q + 1 / 2⌋ := by
  have hd : ((q.den : ℚ)) ≠ 0 := by
    exact_mod_cast q.den_ne_zero
  have hq : q + 1 / 2 = ((2 * q.num + (q.den : ℤ) : ℤ) : ℚ) / (((2 * q.den : ℕ) : ℕ) : ℚ) := by
    conv_lhs => rw [← Rat.num_div_den q]
    push_cast
    field_simp
    ring
  rw [hq, Rat.floor_intCast_div_natCast, jsRound, Int.fdiv_eq_ediv _ (by positivity)]
  push_cast
  ring_nf

theorem digitChar_toNat {d : ℕ} (h : d < 10) : (digitChar d).toNat = 48 + d := by
  interval_cases d <;> decide

theorem isDigitCh_digitChar {d : ℕ} (h : d < 10) : isDigitCh (digitChar d) = true := by
  interval_cases d <;> decide

theorem digitChar_ne_dash {d : ℕ} (h : d < 10) : digitChar d ≠ '-' := by
  interval_cases d <;> decide

theorem digitChar_ne_plus {d : ℕ} (h : d < 10) : digitChar d ≠ '+' := by
  interval_cases d <;> decide

theorem digitVal_digitChar {d : ℕ} (h : d < 10) : digitVal (digitChar d) = d := by
  unfold digitVal
  rw [digitChar_toNat h]
  omega

theorem toDigitsLE_lt : ∀ (fuel n : ℕ), ∀ d ∈ toDigitsLE fuel n, d < 10 := by
  intro fuel
  induction fuel with
  | zero => intro n d hd; simp [toDigitsLE] at hd
  | succ f ih =>
    intro n d hd
    by_cases hn : n = 0
    · simp [toDigitsLE, hn] at hd
    · simp only [toDigitsLE, if_neg hn, List.mem_cons] at hd
      rcases hd with h | h
      · omega
      · exact ih _ _ h

theorem toDigitsLE_ne_nil {n : ℕ} (hn : n ≠ 0) : toDigitsLE n n ≠ [] := by
  cases n with
  | zero => exact absurd rfl hn
  | succ m => simp [toDigitsLE]

theorem ofDigitsLE_toDigitsLE : ∀ (fuel n : ℕ), n ≤ fuel → ofDigitsLE (toDigitsLE fuel n) = n := by
  intro fuel
  induction fuel with
  | zero => intro n h; interval_cases n; simp [toDigitsLE, ofDigitsLE]
  | succ f ih =>
    intro n h
    by_cases hn : n = 0
    · simp [toDigitsLE, hn, ofDigitsLE]
    · have hdiv : n / 10 ≤ f := by
        have : n / 10 < n := Nat.div_lt_self (Nat.pos_of_ne_zero hn) (by omega)
        omega
      simp only [toDigitsLE, if_neg hn, ofDigitsLE, List.foldr_cons]
      have := ih (n / 10) hdiv
      unfold ofDigitsLE at this
      rw [this]
      omega

theorem takeWhile_all {α : Type} {p : α → Bool} :
    ∀ {l : List α}, (∀ x ∈ l, p x = true) → l.takeWhile p = l := by
  intro l
  induction l with
  | nil => intro _; rfl
  | cons a as ih =>
    intro h
    have ha := h a (by simp)
    simp [List.takeWhile_cons, ha, ih (fun x hx => h x (by simp [hx]))]

theorem foldl_map_digitChar :
    ∀ (L : List ℕ) (a : ℕ), (∀ d ∈ L, d < 10) →
      (L.map digitChar).foldl (fun a c => 10 * a + digitVal c) a
        = L.foldl (fun a d => 10 * a + d) a := by
  intro L
  induction L with
  | nil => intro a _; rfl
  | cons d ds ih =>
    intro a h
    simp only [List.map_cons, List.foldl_cons]
    rw [digitVal_digitChar (h d (by simp))]
    exact ih _ (fun x hx => h x (by simp [hx]))

theorem foldl_reverse_ofDigitsLE :
    ∀ (L : List ℕ), L.reverse.foldl (fun a d => 10 * a + d) 0 = ofDigitsLE L := by
  intro L
  induction L with
  | nil => rfl
  | cons d ds ih =>
    simp only [List.reverse_cons, List.foldl_append, List.foldl_cons, List.foldl_nil, ih,
      ofDigitsLE, List.foldr_cons]
    have : ∀ l : List ℕ, l.foldr (fun d r => d + 10 * r) 0 = ofDigitsLE l := fun _ => rfl
    omega

theorem parseLeadingDigits_natDigits {n : ℕ} (hn : n ≠ 0) :
    parseLeadingDigits (((toDigitsLE n n).reverse).map digitChar) = some n := by
  have hall : ∀ c ∈ ((toDigitsLE n n).reverse).map digitChar, isDigitCh c = true := by
    intro c hc
    rcases List.mem_map.mp hc with ⟨d, hd, rfl⟩
    exact isDigitCh_digitChar (toDigitsLE_lt n n d (List.mem_reverse.mp hd))
  have hne : ((toDigitsLE n n).reverse).map digitChar ≠ [] := by
    simp [toDigitsLE_ne_nil hn]
  have hemp : (((toDigitsLE n n).reverse).map digitChar).isEmpty = false := by
    cases hl : ((toDigitsLE n n).reverse).map digitChar
    · exact absurd hl hne
    · rfl
  unfold parseLeadingDigits
  rw [takeWhile_all hall, hemp]
  simp only [Bool.false_eq_true, if_false]
  rw [foldl_map_digitChar _ _ (fun d hd => toDigitsLE_lt n n d (List.mem_reverse.mp hd))]
  rw [foldl_reverse_ofDigitsLE, ofDigitsLE_toDigitsLE n n (le_refl n)]

theorem natToString_data_shape (n : ℕ) :
    ∃ c cs, (natToString n).data = c :: cs ∧ c ≠ '-' ∧ c ≠ '+'
      ∧ parseLeadingDigits (c :: cs) = some n := by
  by_cases hn : n = 0
  · subst hn
    exact ⟨'0', [], by decide, by decide, by decide, by decide⟩
  · rcases he : ((toDigitsLE n n).reverse).map digitChar with _ | ⟨c, cs⟩
    · exfalso
      simp only [List.map_eq_nil_iff, List.reverse_eq_nil_iff] at he
      exact toDigitsLE_ne_nil hn he
    · have hc : c ∈ ((toDigitsLE n n).reverse).map digitChar := by rw [he]; simp
      rcases List.mem_map.mp hc with ⟨d, hdm, hcd⟩
      have hdlt : d < 10 := toDigitsLE_lt n n d (List.mem_reverse.mp hdm)
      refine ⟨c, cs, ?_, ?_, ?_, ?_⟩
      · unfold natToString
        rw [if_neg hn]
        exact he
      · rw [← hcd]; exact digitChar_ne_dash hdlt
      · rw [← hcd]; exact digitChar_ne_plus hdlt
      · rw [← he]; exact parseLeadingDigits_natDigits hn

theorem parseLeadingDigits_natToString (n : ℕ) :
    parseLeadingDigits (natToString n).data = some n := by
  rcases natToString_data_shape n with ⟨c, cs, hdata, _, _, hp⟩
  rw [hdata]; exact hp

theorem jsParseInt_natToString (n : ℕ) : jsParseInt (natToString n) = some (n : ℤ) := by
  rcases natToString_data_shape n with ⟨c, cs, hdata, hdash, hplus, hp⟩
  unfold jsParseInt
  rw [hdata]
  simp only [jsParseIntAux]
  rw [if_neg hdash, if_neg hplus, hp]
  rfl

theorem jsParseInt_intToString (i : ℤ) : jsParseInt (intToString i) = some i := by
  by_cases hi : i < 0
  · unfold intToString jsParseInt
    rw [if_pos hi, String.data_append]
    have hdash : ("-" : String).data = ['-'] := rfl
    rw [hdash]
    simp only [List.cons_append, List.nil_append, jsParseIntAux, if_true]
    rw [parseLeadingDigits_natToString]
    simp only [Option.map_some', Option.some.injEq, Int.ofNat_eq_coe]
    omega
  · unfold intToString
    rw [if_neg hi]
    rw [jsParseInt_natToString]
    congr 1
    omega

theorem natToString_ne_empty (n : ℕ) : natToString n ≠ "" := by
  intro h
  have hp := parseLeadingDigits_natToString n
  rw [h] at hp
  exact Option.noConfusion hp

theorem intToString_ne_empty (i : ℤ) : intToString i ≠ "" := by
  intro h
  have hp := jsParseInt_intToString i
  rw [h] at hp
  exact Option.noConfusion hp

theorem jsNumToString_intCase {q : ℚ} (h : q.den = 1) :
    jsNumToString q = intToString q.num := by
  unfold jsNumToString
  rw [if_pos h]

theorem jsParseInt_jsNumToString {q : ℚ} (h : q.den = 1) :
    jsParseInt (jsNumToString q) = some q.num := by
  rw [jsNumToString_intCase h, jsParseInt_intToString]

theorem jsNumToString_ne_empty_of_int {q : ℚ} (h : q.den = 1) :
    jsNumToString q ≠ "" := by
  rw [jsNumToString_intCase h]
  exact intToString_ne_empty q.num

theorem charListLe_total : ∀ (as bs : List Char), charListLe as bs = true ∨ charListLe bs as = true := by
  intro as
  induction as with
  | nil => intro bs; left; rfl
  | cons a as ih =>
    intro bs
    cases bs with
    | nil => right; rfl
    | cons b bs =>
      simp only [charListLe]
      rcases Nat.lt_trichotomy a.toNat b.toNat with h | h | h
      · left; rw [if_pos h]
      · rw [if_neg (by omega), if_neg (by omega), if_neg (by omega), if_neg (by omega)]
        exact ih bs
      · right; rw [if_pos h]

theorem charListLe_trans :
    ∀ (as bs cs : List Char), charListLe as bs = true → charListLe bs cs = true →
      charListLe as cs = true := by
  intro as
  induction as with
  | nil => intro bs cs _ _; rfl
  | cons a as ih =>
    intro bs cs hab hbc
    cases bs with
    | nil => simp [charListLe] at hab
    | cons b bs =>
      cases cs with
      | nil => simp [charListLe] at hbc
      | cons c cs =>
        simp only [charListLe] at hab hbc ⊢
        rcases Nat.lt_trichotomy a.toNat b.toNat with h1 | h1 | h1
        · rcases Nat.lt_trichotomy b.toNat c.toNat with h2 | h2 | h2
          · rw [if_pos (by omega)]
          · rw [if_pos (by omega)]
          · rw [if_neg (by omega), if_pos (by omega)] at hbc
            exact absurd hbc (by simp)
        · rcases Nat.lt_trichotomy b.toNat c.toNat with h2 | h2 | h2
          · rw [if_pos (by omega)]
          · rw [if_neg (by omega), if_neg (by omega)] at hab hbc ⊢
            exact ih bs cs hab hbc
          · rw [if_neg (by omega), if_pos (by omega)] at hbc
            exact absurd hbc (by simp)
        · rw [if_neg (by omega), if_pos (by omega)] at hab
          exact absurd hab (by simp)

theorem strLe_total (a b : String) : strLe a b = true ∨ strLe b a = true :=
  charListLe_total a.data b.data

theorem strLe_trans {a b c : String} (h1 : strLe a b = true) (h2 : strLe b c = true) :
    strLe a c = true :=
  charListLe_trans a.data b.data c.data h1 h2

/-! ### Data model

The option records handled by the service.  `Transform` mirrors the
`Transform` type of the source: an Astro `ImageTransform` whose `src` is a
string or an ESM-imported `ImageMetadata`, plus arbitrary further HTML
attributes (kept in `extra`; a JavaScript object cannot repeat a key, so
`extra` is meant to be disjoint from the named fields).  Absent (i.e.
`undefined`) optional properties are `none`. -/

/-- Astro's `ImageMetadata` record for an ESM-imported image. -/
structure ImageMetadata where
  src : String
  width : ℚ
  height : ℚ
  format : String
deriving Repr, DecidableEq

/-- A value for the `src` option: a string, an `ImageMetadata`, or any
other JavaScript value (`isImageMetadata` fails on it), remembered by its
`typeof` name and its truthiness. -/
inductive SrcVal
  | str (s : String)
  | meta (m : ImageMetadata)
  | other (typeName : String) (truthy : Bool)
deriving Repr, DecidableEq

/-- A `quality` option: a number or a preset keyword string. -/
inductive Quality
  | num (q : ℚ)
  | str (s : String)
deriving Repr, DecidableEq

/-- A `densities` entry: a number or a numeric string (Astro's
`(number | ${number})[]`). -/
inductive Density
  | num (q : ℚ)
  | str (s : String)
deriving Repr, DecidableEq

/-- The transform options record. -/
structure Transform where
  src : Option SrcVal := none
  width : Option ℚ := none
  height : Option ℚ := none
  format : Option String := none
  formats : Option (List String) := none
  quality : Option Quality := none
  densities : Option (List Density) := none
  widths : Option (List ℚ) := none
  loading : Option String := none
  decoding : Option String := none
  extra : List (String × String) := []
deriving Repr, DecidableEq

/-- JavaScript truthiness of an optional number (`undefined`, `0` falsy;
`NaN` is excluded from the model's option records). -/
def numTruthy : Option ℚ → Bool
  | none => false
  | some q => decide (q ≠ 0)

/-- JavaScript truthiness of an optional string. -/
def strTruthy : Option String → Bool
  | none => false
  | some s => decide (s ≠ "")

/-- JavaScript truthiness of the `src` option. -/
def srcTruthy : Option SrcVal → Bool
  | none => false
  | some (SrcVal.str s) => decide (s ≠ "")
  | some (SrcVal.meta _) => true
  | some (SrcVal.other _ truthy) => truthy

/-- JavaScript truthiness of a `quality` value. -/
def qualityTruthy : Quality → Bool
  | Quality.num q => decide (q ≠ 0)
  | Quality.str s => decide (s ≠ "")

/-- The template-literal rendering of a `quality` value. -/
def qualityToString : Quality → String
  | Quality.num q => jsNumToString q
  | Quality.str s => s

/-! ### URL classification regexes of `validateOptions` -/

/-- Word character, the `\w` class: `[A-Za-z0-9_]`. -/
def isWordCh (c : Char) : Bool :=
  decide ((48 ≤ c.toNat ∧ c.toNat ≤ 57) ∨ (65 ≤ c.toNat ∧ c.toNat ≤ 90)
    ∨ (97 ≤ c.toNat ∧ c.toNat ≤ 122) ∨ c.toNat = 95)

/-- Structural `startsWith` on the underlying character lists. -/
def strStartsWith (s p : String) : Bool := p.data.isPrefixOf s.data

/-- Does a character list start with the three characters `://`? -/
def hasSchemeSep : List Char → Bool
  | ':' :: '/' :: '/' :: _ => true
  | _ => false

/-- The test `/^(?:\w+:)?\/\//` : an absolute (possibly protocol-relative)
URL, i.e. a leading `//` or a non-empty run of word characters followed by
`://`. -/
def isAbsoluteURL (s : String) : Bool :=
  strStartsWith s "//"
    || (!(s.data.takeWhile isWordCh).isEmpty
        && hasSchemeSep (s.data.drop (s.data.takeWhile isWordCh).length))

/-- The test `/^\/(?![@/])/` : a leading `/` not followed by `@` or `/`. -/
def isPublicAsset (s : String) : Bool :=
  match s.data with
  | '/' :: rest =>
    match rest with
    | [] => true
    | c :: _ => decide (c ≠ '@' ∧ c ≠ '/')
  | _ => false

/-- The test `src.startsWith('/' + assets + '/')`. -/
def isBundledAsset (assets s : String) : Bool := strStartsWith s ("/" ++ assets ++ "/")

/-! ### validateOptions -/

/-- An error escaping the service.  Every `throw` written in the source
constructs an `AstroError` with a message, but two other errors can
escape `validateOptions`: the `URL` constructor at index.ts:51/55/60
throws a `TypeError` on a malformed URL (e.g. `new URL("http://")`), and
the `assert.ok(isPublicAsset)` call would raise a Node `AssertionError`.
Both are kept as separate cases so that claims about which errors are
raised are statements about the program, not tautologies of the model. -/
inductive ServiceError
  | astro (msg : String)
  | typeError (msg : String)
  | assertionFailure
deriving Repr, DecidableEq

/-- The fields of `config.service.config` read by the service.  The three
directory strings are `undefined`-or-string in the source; an absent value
is modelled as the (equally falsy) empty string.  `defaultFormat` keeps
its `undefined` case because the destructuring default `'avif'` applies
only to `undefined`. -/
structure ServiceConfigRec where
  publicDir : String
  assets : String
  outDir : String
  defaultFormat : Option String := none
deriving Repr, DecidableEq

/-- The dimension probe of the string branch, after `new URL(...)`.  The
`URL` constructor is not wrapped in any try/catch, so its failure (the
`url` argument being `none`) escapes as the constructor's `TypeError`;
on success the `imageInformation` answer either fills in both dimensions
or produces the `AstroError` of index.ts:69. -/
def probeDimensions (imageInfo : String → Option (ℚ × ℚ)) (options : Transform) (s : String)
    (url : Option String) : Except ServiceError Transform :=
  match url with
  | none => Except.error (ServiceError.typeError ("Invalid URL: " ++ s))
  | some u =>
    match imageInfo u with
    | some (w, h) => Except.ok { options with width := some w, height := some h }
    | none => Except.error (ServiceError.astro
        ("width and height must be specified for " ++ s))

/-- The `typeof src`-directed middle part of `validateOptions`: the string
branch (asset classification, then `URL` construction and dimension
inference through the `imageInformation` oracle when a dimension is
falsy), the `ImageMetadata` branch (SVG format rules) and the rejection
of any other `src`.  The WHATWG `URL` constructor is the `resolveURL`
oracle: `resolveURL input base` is the serialised URL, or `none` when
`new URL(input, base)` throws its `TypeError`. -/
def validateSrcStep (resolveURL : String → Option String → Option String)
    (imageInfo : String → Option (ℚ × ℚ)) (options : Transform)
    (config : ServiceConfigRec) : Except ServiceError Transform :=
  match options.src with
  | some (SrcVal.str s) =>
    if !isAbsoluteURL s && !isBundledAsset config.assets s && !isPublicAsset s then
      Except.error (ServiceError.astro ("Local image not correctly imported: " ++ s))
    else if !numTruthy options.width || !numTruthy options.height then
      if isAbsoluteURL s then
        probeDimensions imageInfo options s
          (resolveURL (if strStartsWith s "//" then "https://" ++ s else s) none)
      else if isBundledAsset config.assets s then
        probeDimensions imageInfo options s (resolveURL s (some config.outDir))
      else if isPublicAsset s then
        probeDimensions imageInfo options s (resolveURL s (some config.publicDir))
      else Except.error ServiceError.assertionFailure
    else Except.ok options
  | some (SrcVal.meta m) =>
    if m.format = "svg" ∧ options.format = none then
      Except.ok { options with format := some "svg" }
    else if m.format ≠ "svg" ∧ options.format = some "svg" then
      Except.error (ServiceError.astro ("Cannot transform from " ++ m.format ++ " to svg"))
    else Except.ok options
  | some (SrcVal.other typeName _) =>
    Except.error (ServiceError.astro
      ("Expected src to be of type string | ImageMetadata, but got " ++ typeName ++ " instead"))
  | none =>
    Except.error (ServiceError.astro "src is missing")

/-- The tail of `validateOptions`: the `densities`/`widths` exclusion,
the rounding of truthy dimensions, and the format defaulting and `jpg`
normalisation. -/
def validateFinish (opts1 : Transform) (config : ServiceConfigRec) :
    Except ServiceError Transform :=
  if opts1.densities.isSome ∧ opts1.widths.isSome then
    Except.error (ServiceError.astro "densities and widths cannot be used together")
  else
    let opts2 := if numTruthy opts1.width then
        { opts1 with width := some ((jsRound ((opts1.width).getD 0) : ℤ) : ℚ) }
      else opts1
    let opts3 := if numTruthy opts2.height then
        { opts2 with height := some ((jsRound ((opts2.height).getD 0) : ℤ) : ℚ) }
      else opts2
    let opts4 := if strTruthy opts3.format = false then
        { opts3 with format := some ((config.defaultFormat).getD "avif") }
      else if opts3.format = some "jpg" then
        { opts3 with format := some "jpeg" }
      else opts3
    Except.ok opts4

/-- The `validateOptions` service hook.  The externals are two oracles:
`resolveURL` is the WHATWG `URL` constructor (with `none` for its
`TypeError`), and `imageInfo` is the `imageInformation` probe (an
HTTP/file fetch followed by image-header sniffing) from the serialised
URL to intrinsic dimensions. -/
def validateOptions (resolveURL : String → Option String → Option String)
    (imageInfo : String → Option (ℚ × ℚ)) (options : Transform)
    (config : ServiceConfigRec) : Except ServiceError Transform :=
  if config.publicDir = "" ∨ config.assets = "" ∨ config.outDir = "" then
    Except.error (ServiceError.astro
      "This image service cannot be used directly, you must use the provided Astro integration!")
  else if srcTruthy options.src = false then
    Except.error (ServiceError.astro "src is missing")
  else
    match validateSrcStep resolveURL imageInfo options config with
    | Except.error e => Except.error e
    | Except.ok opts1 => validateFinish opts1 config

/-! ### getURL and parseURL -/

/-- The `href` query value: `typeof src === 'string' ? src : src.src`.
Reading `.src` of a non-metadata object yields `undefined`, which
`URLSearchParams.append` stringifies. -/
def hrefOf : SrcVal → String
  | SrcVal.str s => s
  | SrcVal.meta m => m.src
  | SrcVal.other _ _ => "undefined"

/-- The `w`/`h` parameter appended by `getURL` when the numeric option is
truthy. -/
def queryNumPart (k : String) : Option ℚ → List (String × String)
  | some w => if w ≠ 0 then [(k, jsNumToString w)] else []
  | none => []

/-- The `q` parameter appended by `getURL` when `quality` is truthy. -/
def queryQualityPart : Option Quality → List (String × String)
  | some q => if qualityTruthy q then [("q", qualityToString q)] else []
  | none => []

/-- The `f` parameter appended by `getURL` when `format` is truthy. -/
def queryFormatPart : Option String → List (String × String)
  | some f => if f ≠ "" then [("f", f)] else []
  | none => []

/-- The query string built by `getURL`, as the ordered key/value list fed
to `URLSearchParams` (the path prefix in front of `?` plays no part in
`parseURL`, which only reads `searchParams`).  `none` models the
`TypeError` of reading `options.src.src` when `src` is absent. -/
def getURLQuery (options : Transform) : Option (List (String × String)) :=
  (options.src).map (fun sv =>
    [("href", hrefOf sv)]
    ++ queryNumPart "w" options.width
    ++ queryNumPart "h" options.height
    ++ queryQualityPart options.quality
    ++ queryFormatPart options.format)

/-- A `width`/`height` field of the record returned by `parseURL`:
`undefined`, `NaN`, or an integer. -/
inductive JsNumOpt
  | undef
  | nan
  | num (z : ℤ)
deriving Repr, DecidableEq

/-- The record returned by `parseURL`. -/
structure ParsedTransform where
  src : String
  width : JsNumOpt
  height : JsNumOpt
  quality : Option String
  format : Option String
  lossless : Bool
deriving Repr, DecidableEq

/-- The `w`/`h` handling of `parseURL`: `width ? Number.parseInt(width, 10)
: undefined` for `width = query.get(k)`. -/
def parseNumParam (query : List (String × String)) (k : String) : JsNumOpt :=
  match query.lookup k with
  | none => JsNumOpt.undef
  | some s =>
    if s = "" then JsNumOpt.undef
    else match jsParseInt s with
      | none => JsNumOpt.nan
      | some z => JsNumOpt.num z

/-- The `parseURL` service hook over the query's key/value list. -/
def parseURL (query : List (String × String)) : Option ParsedTransform :=
  match query.lookup "href" with
  | none => none
  | some src =>
    if src = "" then none
    else some {
      src := src
      width := parseNumParam query "w"
      height := parseNumParam query "h"
      quality := query.lookup "q"
      format := query.lookup "f"
      lossless := decide (query.lookup "lossless" = some "1") }

/-! ### getTargetDimensions -/

/-- The `getTargetDimensions` helper: infer the missing dimension from the
metadata's aspect ratio, pass string-src dimensions through unchanged. -/
def getTargetDimensions (options : Transform) : Option ℚ × Option ℚ :=
  match options.src with
  | some (SrcVal.meta m) =>
    let aspect := m.width / m.height
    if numTruthy options.height && !numTruthy options.width then
      (some ((jsRound (((options.height).getD 0) * aspect) : ℤ) : ℚ), options.height)
    else if numTruthy options.width && !numTruthy options.height then
      (options.width, some ((jsRound (((options.width).getD 0) / aspect) : ℤ) : ℚ))
    else if !numTruthy options.width && !numTruthy options.height then
      (some m.width, some m.height)
    else (options.width, options.height)
  | _ => (options.width, options.height)

/-! ### getSrcSet -/

/-- Numeric value of a `densities` entry:
`typeof density === 'number' ? density : Number.parseFloat(density)`;
`none` is `NaN`. -/
def densityToNumber : Density → Option ℚ
  | Density.num q => some q
  | Density.str s => jsParseFloat s

/-- The string key the default `sort()` comparator uses for an element
(`String(NaN)` is `"NaN"`). -/
def jsNumKey : Option ℚ → String
  | none => "NaN"
  | some q => jsNumToString q

/-- Comparison of density values by their string forms, the order the
comparator-less `sort()` call uses. -/
def densityKeyLe (a b : Option ℚ) : Prop := strLe (jsNumKey a) (jsNumKey b) = true

instance : DecidableRel densityKeyLe := fun a b => by
  unfold densityKeyLe
  infer_instance

instance : IsTotal (Option ℚ) densityKeyLe :=
  ⟨fun a b => strLe_total (jsNumKey a) (jsNumKey b)⟩

instance : IsTrans (Option ℚ) densityKeyLe :=
  ⟨fun _ _ _ h1 h2 => strLe_trans h1 h2⟩

/-- The `densityValues` list of `getSrcSet`: numeric values of the
supplied densities, sorted by the default (string-comparing, stable)
`sort()`; a stable sort for a total preorder has a unique result, so the
structural insertion sort stands in for the engine's sort. -/
def sortedDensityValues (densities : List Density) : List (Option ℚ) :=
  List.insertionSort densityKeyLe (densities.map densityToNumber)

/-- `Math.min(x, maxWidth)` where `x` may be `NaN` (`none`, absorbing) and
`maxWidth` may be `Infinity` (`none`, neutral). -/
def jsMinClamp (x : Option ℚ) (maxWidth : Option ℚ) : Option ℚ :=
  match x, maxWidth with
  | none, _ => none
  | some v, none => some v
  | some v, some m => some (min v m)

/-- An entry of the `allWidths` array of `getSrcSet`. -/
structure SrcSetCandidate where
  maxTargetWidth : Option ℚ
  descriptor : String
deriving Repr, DecidableEq

/-- The `maxWidth` bound of `getSrcSet`: the intrinsic metadata width, or
`Infinity` (`none`) for a string `src`. -/
def srcMaxWidth (options : Transform) : Option ℚ :=
  match options.src with
  | some (SrcVal.meta m) => some m.width
  | _ => none

/-- The `allWidths` array of `getSrcSet`: candidates from `densities`
(via the sorted density values and the target width) or from `widths`. -/
def getSrcSetAllWidths (options : Transform) : List SrcSetCandidate :=
  match options.densities with
  | some ds =>
    match (getTargetDimensions options).1 with
    | some width =>
      (sortedDensityValues ds).map (fun density =>
        { maxTargetWidth :=
            jsMinClamp ((density).map (fun d => ((jsRound (width * d) : ℤ) : ℚ)))
              (srcMaxWidth options)
          descriptor := jsNumKey density ++ "x" })
    | none => []
  | none =>
    match options.widths with
    | some ws =>
      ws.map (fun w =>
        { maxTargetWidth := jsMinClamp (some w) (srcMaxWidth options)
          descriptor := jsNumToString w ++ "w" })
    | none => []

/-- An emitted `srcset` candidate: a transform, a descriptor and the
`type` attribute. -/
structure SrcSetEntry where
  transform : Transform
  descriptor : String
  attrType : String
deriving Repr, DecidableEq

/-- The strict-inequality test `maxTargetWidth !== imageWidth`, where
`maxTargetWidth` may be `NaN` (never equal) and `imageWidth` may be
`undefined` (never equal to a number). -/
def maxNeImageWidth (maxTargetWidth : Option ℚ) (imageWidth : Option ℚ) : Bool :=
  match maxTargetWidth, imageWidth with
  | none, _ => true
  | some _, none => true
  | some a, some b => decide (a ≠ b)

/-- The `getSrcSet` service hook.  `none` models the `TypeError` of
reading `src.width` when `src` is neither a string nor an
`ImageMetadata`.  A `NaN` `maxTargetWidth` (possible only through an
unparseable density string) is stored as an absent `width` on the emitted
transform. -/
def getSrcSet (options : Transform) : Option (List SrcSetEntry) :=
  let format := (options.format).getD "avif"
  let mimeType :=
    if format = "svg" then "image/svg+xml"
    else if format = "ico" then "image/vnd.microsoft.icon"
    else "image/" ++ format
  match options.src with
  | some (SrcVal.str _) | some (SrcVal.meta _) =>
    let imageWidth : Option ℚ :=
      match options.src with
      | some (SrcVal.meta m) => some m.width
      | _ => options.width
    let base := { options with width := none, height := none }
    some ((getSrcSetAllWidths options).map (fun c =>
      { transform :=
          if maxNeImageWidth c.maxTargetWidth imageWidth then
            { base with width := c.maxTargetWidth }
          else if numTruthy options.width && numTruthy options.height then
            { base with width := options.width, height := options.height }
          else base
        descriptor := c.descriptor
        attrType := mimeType }))
  | _ => none

/-! ### getHTMLAttributes -/

/-- A JavaScript property value appearing on an options record. -/
inductive JsVal
  | undef
  | num (q : ℚ)
  | str (s : String)
  | metaVal (m : ImageMetadata)
  | otherVal (typeName : String) (truthy : Bool)
  | qual (q : Quality)
  | densList (l : List Density)
  | numList (l : List ℚ)
  | strList (l : List String)
deriving Repr, DecidableEq

/-- A `src` value as a property value. -/
def srcToVal : SrcVal → JsVal
  | SrcVal.str s => JsVal.str s
  | SrcVal.meta m => JsVal.metaVal m
  | SrcVal.other t b => JsVal.otherVal t b

/-- A present optional property as a one-entry list. -/
def optEntry (k : String) : Option JsVal → List (String × JsVal)
  | none => []
  | some v => [(k, v)]

/-- The own enumerable properties of a `Transform`, in declaration order,
as the object destructuring in `getHTMLAttributes` sees them. -/
def transformProps (t : Transform) : List (String × JsVal) :=
  optEntry "src" ((t.src).map srcToVal)
  ++ optEntry "width" ((t.width).map JsVal.num)
  ++ optEntry "height" ((t.height).map JsVal.num)
  ++ optEntry "format" ((t.format).map JsVal.str)
  ++ optEntry "formats" ((t.formats).map JsVal.strList)
  ++ optEntry "quality" ((t.quality).map JsVal.qual)
  ++ optEntry "densities" ((t.densities).map JsVal.densList)
  ++ optEntry "widths" ((t.widths).map JsVal.numList)
  ++ optEntry "loading" ((t.loading).map JsVal.str)
  ++ optEntry "decoding" ((t.decoding).map JsVal.str)
  ++ t.extra.map (fun p => (p.1, JsVal.str p.2))

/-- The ten property names removed by the rest-destructuring in
`getHTMLAttributes`. -/
def destructuredNames : List String :=
  ["src", "width", "height", "format", "formats", "quality", "densities", "widths",
   "loading", "decoding"]

/-- The `getHTMLAttributes` service hook: the rest of the options record,
then the computed `width`/`height` and the defaulted
`loading`/`decoding`. -/
def getHTMLAttributes (t : Transform) : List (String × JsVal) :=
  let dims := getTargetDimensions t
  ((transformProps t).filter (fun p => !(destructuredNames).contains p.1))
  ++ [("width", (dims.1).elim JsVal.undef JsVal.num),
      ("height", (dims.2).elim JsVal.undef JsVal.num),
      ("loading", JsVal.str ((t.loading).getD "lazy")),
      ("decoding", JsVal.str ((t.decoding).getD "async"))]

/-! ### Module state

The module's only top-level binding holding data is the `const
qualityTable`; no function reassigns it or any other module-level name, so
the state-threaded forms of the pure hooks return their argument state
unchanged and never read it. -/

/-- The module-level environment: the quality-preset table. -/
def ModuleState := String → Option ℚ

/-- The `qualityTable` constant. -/
def qualityTable : ModuleState := fun k =>
  if k = "low" then some 50
  else if k = "mid" then some 70
  else if k = "high" then some 80
  else if k = "max" then some 100
  else none

/-- `parseURL` threaded through the module state. -/
def parseURLSt (st : ModuleState) (query : List (String × String)) :
    Option ParsedTransform × ModuleState := (parseURL query, st)

/-- `getTargetDimensions` threaded through the module state. -/
def getTargetDimensionsSt (st : ModuleState) (t : Transform) :
    (Option ℚ × Option ℚ) × ModuleState := (getTargetDimensions t, st)

/-- `getSrcSet` threaded through the module state. -/
def getSrcSetSt (st : ModuleState) (t : Transform) :
    Option (List SrcSetEntry) × ModuleState := (getSrcSet t, st)

/-- `getHTMLAttributes` threaded through the module state. -/
def getHTMLAttributesSt (st : ModuleState) (t : Transform) :
    List (String × JsVal) × ModuleState := (getHTMLAttributes t, st)

/-! ### Claim theorems -/

theorem lookup_append {α : Type} (k : String) (l1 l2 : List (String × α)) :
    List.lookup k (l1 ++ l2) = Option.or (List.lookup k l1) (List.lookup k l2) := by
  induction l1 with
  | nil => simp [List.lookup]
  | cons a l ih =>
    obtain ⟨ka, va⟩ := a
    cases h : (k == ka) with
    | true => simp [List.lookup, h]
    | false => simp [List.lookup, h, ih]

theorem lookup_queryNumPart_self (k : String) (w : Option ℚ) :
    List.lookup k (queryNumPart k w)
      = match w with
        | some v => if v ≠ 0 then some (jsNumToString v) else none
        | none => none := by
  cases w with
  | none => rfl
  | some v =>
    by_cases hv : v ≠ 0
    · simp [queryNumPart, hv, List.lookup]
    · simp [queryNumPart, hv, List.lookup]

theorem lookup_queryNumPart_ne {k k' : String} (h : (k' == k) = false) (w : Option ℚ) :
    List.lookup k' (queryNumPart k w) = none := by
  cases w with
  | none => rfl
  | some v =>
    by_cases hv : v ≠ 0
    · simp [queryNumPart, hv, List.lookup, h]
    · simp [queryNumPart, hv, List.lookup]

theorem lookup_queryQualityPart_self (q : Option Quality) :
    List.lookup "q" (queryQualityPart q)
      = match q with
        | some v => if qualityTruthy v then some (qualityToString v) else none
        | none => none := by
  cases q with
  | none => rfl
  | some v =>
    by_cases hv : qualityTruthy v
    · simp [queryQualityPart, hv, List.lookup]
    · simp [queryQualityPart, hv, List.lookup]

theorem lookup_queryQualityPart_ne {k' : String} (h : (k' == "q") = false) (q : Option Quality) :
    List.lookup k' (queryQualityPart q) = none := by
  cases q with
  | none => rfl
  | some v =>
    by_cases hv : qualityTruthy v
    · simp [queryQualityPart, hv, List.lookup, h]
    · simp [queryQualityPart, hv, List.lookup]

theorem lookup_queryFormatPart_self (f : Option String) :
    List.lookup "f" (queryFormatPart f)
      = match f with
        | some v => if v ≠ "" then some v else none
        | none => none := by
  cases f with
  | none => rfl
  | some v =>
    by_cases hv : v ≠ ""
    · simp [queryFormatPart, hv, List.lookup]
    · simp [queryFormatPart, hv, List.lookup]

theorem lookup_queryFormatPart_ne {k' : String} (h : (k' == "f") = false) (f : Option String) :
    List.lookup k' (queryFormatPart f) = none := by
  cases f with
  | none => rfl
  | some v =>
    by_cases hv : v ≠ ""
    · simp [queryFormatPart, hv, List.lookup, h]
    · simp [queryFormatPart, hv, List.lookup]

/-- The `w`/`h` field `parseURL` recovers from a query built by `getURL`
out of a truthy integral numeric option. -/
def encodedNum : Option ℚ → JsNumOpt
  | none => JsNumOpt.undef
  | some w => JsNumOpt.num w.num

/-- C1 (amended): for every transform options record whose `src` is
present with a non-empty href string, whose `width` and `height` are, when
present, non-zero integers, whose `format` is, when present, non-empty,
and whose `quality` is, when present, truthy, `parseURL` applied to the
query built by `getURL` recovers the same src as the `href` parameter, the
same width and height as numbers when they were present (`undefined`
otherwise), the same format string, the quality as the string form of the
encoded quality, and a `lossless` field of `false` because `getURL` never
emits a `lossless` parameter. -/
theorem getURL_parseURL_roundtrip
    (options : Transform) (sv : SrcVal)
    (hsrc : options.src = some sv)
    (hhref : hrefOf sv ≠ "")
    (hw : ∀ w, options.width = some w → w ≠ 0 ∧ w.den = 1)
    (hh : ∀ h, options.height = some h → h ≠ 0 ∧ h.den = 1)
    (hq : ∀ q, options.quality = some q → qualityTruthy q = true)
    (hf : ∀ f, options.format = some f → f ≠ "") :
    (getURLQuery options).bind parseURL = some {
        src := hrefOf sv
        width := encodedNum options.width
        height := encodedNum options.height
        quality := (options.quality).map qualityToString
        format := options.format
        lossless := false } := by
  rcases options with ⟨src, width, height, format, formats, quality, densities, widths,
    loading, decoding, extra⟩
  simp only [] at hsrc hw hh hq hf
  subst hsrc
  rcases width with _ | w <;> rcases height with _ | h <;>
    rcases quality with _ | q <;> rcases format with _ | f <;>
    simp_all [getURLQuery, parseURL, parseNumParam, List.lookup, queryNumPart,
      queryQualityPart, queryFormatPart, encodedNum, jsParseInt_jsNumToString,
      jsNumToString_ne_empty_of_int, hhref, Option.bind]

/-- Witness for C1: the round-trip theorem applied to a concrete record
with `src = "/a.png"`, `width = 3`, `quality = 'low'`, `format = 'avif'`. -/
theorem getURL_parseURL_roundtrip_witness :
    ((3 : ℚ) ≠ 0 ∧ (3 : ℚ).den = 1) ∧
    (getURLQuery { src := some (SrcVal.str "/a.png"), width := some 3,
                   quality := some (Quality.str "low"), format := some "avif" }).bind parseURL
      = some { src := "/a.png", width := JsNumOpt.num 3, height := JsNumOpt.undef,
               quality := some "low", format := some "avif", lossless := false } := by
  refine ⟨⟨by decide, rfl⟩, ?_⟩
  have h := getURL_parseURL_roundtrip
    { src := some (SrcVal.str "/a.png"), width := some 3,
      quality := some (Quality.str "low"), format := some "avif" }
    (SrcVal.str "/a.png") rfl (by decide)
    (by intro w hw; injection hw with hw; subst hw; exact ⟨by decide, rfl⟩)
    (by intro h hh; exact Option.noConfusion hh)
    (by intro q hq; injection hq with hq; subst hq; decide)
    (by intro f hf; injection hf with hf; subst hf; decide)
  exact h

/-- Counterexample to C1 as frozen: for the record with `src = "/a.png"`
and a present `width` of `0`, `getURL` omits the `w` parameter (JavaScript
truthiness), so `parseURL` recovers `undefined` rather than the present
width `0`. -/
theorem getURL_parseURL_roundtrip_cex :
    getURLQuery { src := some (SrcVal.str "/a.png"), width := some 0 }
        = some [("href", "/a.png")] ∧
    parseURL [("href", "/a.png")]
        = some { src := "/a.png", width := JsNumOpt.undef, height := JsNumOpt.undef,
                 quality := none, format := none, lossless := false } ∧
    JsNumOpt.undef ≠ JsNumOpt.num 0 :=
  ⟨by decide, by decide, by decide⟩

/-- C9 (amended): `parseURL` returns `undefined` exactly when the query
has no non-empty `href` parameter; for every query with a non-empty `href`
it returns a record whose `src` is that value, whose `width` and `height`
are the base-10 integer parses of `w` and `h` when those parameters are
present and non-empty (`undefined` otherwise, including for a present but
empty parameter), and whose `lossless` field is `true` exactly when the
`lossless` parameter equals `"1"`. -/
theorem parseURL_query_semantics (query : List (String × String)) :
    (parseURL query = none ↔ (query.lookup "href" = none ∨ query.lookup "href" = some ""))
    ∧ (∀ s, query.lookup "href" = some s → s ≠ "" →
        ((parseURL query).map ParsedTransform.src = some s
          ∧ (∀ w, query.lookup "w" = some w → w ≠ "" →
              (parseURL query).map ParsedTransform.width
                = some (match jsParseInt w with
                        | none => JsNumOpt.nan
                        | some z => JsNumOpt.num z))
          ∧ ((query.lookup "w" = none ∨ query.lookup "w" = some "") →
              (parseURL query).map ParsedTransform.width = some JsNumOpt.undef)
          ∧ (∀ h, query.lookup "h" = some h → h ≠ "" →
              (parseURL query).map ParsedTransform.height
                = some (match jsParseInt h with
                        | none => JsNumOpt.nan
                        | some z => JsNumOpt.num z))
          ∧ ((query.lookup "h" = none ∨ query.lookup "h" = some "") →
              (parseURL query).map ParsedTransform.height = some JsNumOpt.undef)
          ∧ ((parseURL query).map ParsedTransform.lossless = some true
              ↔ query.lookup "lossless" = some "1"))) := by
  rcases href : query.lookup "href" with _ | s
  · constructor
    · simp [parseURL, href]
    · intro s hs
      exact Option.noConfusion hs
  · by_cases hse : s = ""
    · subst hse
      constructor
      · simp [parseURL, href]
      · intro s' hs' hne
        injection hs' with h
        exact absurd h.symm hne
    · have hp : parseURL query
          = some { src := s, width := parseNumParam query "w",
                   height := parseNumParam query "h", quality := query.lookup "q",
                   format := query.lookup "f",
                   lossless := decide (query.lookup "lossless" = some "1") } := by
        unfold parseURL
        rw [href]
        simp only [if_neg hse]
      constructor
      · rw [hp]
        simp [hse]
      · intro s' hs' hne
        injection hs' with hss'
        subst hss'
        refine ⟨by rw [hp]; rfl, ?_, ?_, ?_, ?_, ?_⟩
        · intro w hw hwne
          rw [hp]
          simp only [Option.map_some']
          unfold parseNumParam
          rw [hw]
          simp only [if_neg hwne]
        · intro hcase
          rw [hp]
          simp only [Option.map_some']
          unfold parseNumParam
          rcases hcase with h | h
          · rw [h]
          · rw [h]
            simp
        · intro hgt hw hwne
          rw [hp]
          simp only [Option.map_some']
          unfold parseNumParam
          rw [hw]
          simp only [if_neg hwne]
        · intro hcase
          rw [hp]
          simp only [Option.map_some']
          unfold parseNumParam
          rcases hcase with h | h
          · rw [h]
          · rw [h]
            simp
        · rw [hp]
          simp only [Option.map_some', Option.some.injEq]
          constructor
          · intro h
            simpa using h
          · intro h
            simp [h]

/-- Witness for C9: the semantics theorem applied to the concrete query
`href=a&w=7&lossless=1`. -/
theorem parseURL_query_semantics_witness :
    (parseURL [("href", "a"), ("w", "7"), ("lossless", "1")]).map ParsedTransform.src = some "a"
    ∧ (parseURL [("href", "a"), ("w", "7"), ("lossless", "1")]).map ParsedTransform.width
        = some (JsNumOpt.num 7)
    ∧ (parseURL [("href", "a"), ("w", "7"), ("lossless", "1")]).map ParsedTransform.lossless
        = some true := by
  have T := (parseURL_query_semantics [("href", "a"), ("w", "7"), ("lossless", "1")]).2
    "a" (by decide) (by decide)
  refine ⟨T.1, ?_, ?_⟩
  · have hw := T.2.1 "7" (by decide) (by decide)
    rw [hw]
    decide
  · exact T.2.2.2.2.2.mpr (by decide)

/-- Counterexample to C9 as frozen: for the query `href=a&w=`, the `w`
parameter is present, and `Number.parseInt("")` is `NaN`, yet `parseURL`
returns an `undefined` width, not `NaN`. -/
theorem parseURL_query_semantics_cex :
    parseURL [("href", "a"), ("w", "")]
        = some { src := "a", width := JsNumOpt.undef, height := JsNumOpt.undef,
                 quality := none, format := none, lossless := false }
    ∧ jsParseInt "" = none
    ∧ JsNumOpt.undef ≠ JsNumOpt.nan :=
  ⟨by decide, by decide, by decide⟩

/-- Concrete record for the density-sort claim: a string src with width
50 and densities `[2, 10]`. -/
def exDensityOpts : Transform :=
  { src := some (SrcVal.str "x"), width := some 50,
    densities := some [Density.num 2, Density.num 10] }

/-- C2 (amended): in `getSrcSet`, when densities are supplied, the density
values are sorted by the comparator-less `sort()`, i.e. ascending in the
lexicographic order of their string forms (not ascending numeric order),
before candidates are generated: the sorted list is ordered by
`densityKeyLe` and is a permutation of the mapped density values, and the
emitted candidates follow it in order, each candidate's descriptor being
its own density value's string form followed by `x`. -/
theorem getSrcSet_density_sort
    (options : Transform) (ds : List Density) (tw : ℚ)
    (hds : options.densities = some ds)
    (htw : (getTargetDimensions options).1 = some tw) :
    List.Pairwise densityKeyLe (sortedDensityValues ds)
    ∧ List.Perm (sortedDensityValues ds) (ds.map densityToNumber)
    ∧ (getSrcSetAllWidths options).map SrcSetCandidate.descriptor
        = (sortedDensityValues ds).map (fun d => jsNumKey d ++ "x") := by
  refine ⟨List.sorted_insertionSort densityKeyLe _, List.perm_insertionSort densityKeyLe _, ?_⟩
  unfold getSrcSetAllWidths
  rw [hds, htw]
  simp [List.map_map]

/-- Witness for C2: the sort theorem applied to a record with a string
src, target width 50 and densities `[2, 10]`. -/
theorem getSrcSet_density_sort_witness :
    ((exDensityOpts).densities = some [Density.num 2, Density.num 10]
      ∧ (getTargetDimensions exDensityOpts).1 = some 50)
    ∧ (List.Pairwise densityKeyLe (sortedDensityValues [Density.num 2, Density.num 10])
      ∧ List.Perm (sortedDensityValues [Density.num 2, Density.num 10])
          ([Density.num 2, Density.num 10].map densityToNumber)
      ∧ (getSrcSetAllWidths exDensityOpts).map SrcSetCandidate.descriptor
        = (sortedDensityValues [Density.num 2, Density.num 10]).map
            (fun d => jsNumKey d ++ "x")) :=
  ⟨⟨rfl, rfl⟩,
    getSrcSet_density_sort exDensityOpts [Density.num 2, Density.num 10] 50 rfl rfl⟩

/-- Counterexample to C2 as frozen: for densities `[2, 10]` the default
`sort()` compares the strings `"2"` and `"10"`, so the sorted density
values come out as `[10, 2]` and the candidates (descriptors `10x`, `2x`)
are not in ascending numeric order. -/
theorem getSrcSet_density_sort_cex :
    sortedDensityValues [Density.num 2, Density.num 10] = [some 10, some 2]
    ∧ (getSrcSetAllWidths exDensityOpts).map SrcSetCandidate.descriptor = ["10x", "2x"]
    ∧ ¬ ((10 : ℚ) ≤ 2) := by
  refine ⟨by decide, ?_, by decide⟩
  simp [exDensityOpts, getSrcSetAllWidths, List.map_map]
  decide

theorem jsMinClamp_map_some (x : Option ℚ) (f : ℚ → ℚ) (mw : ℚ) :
    jsMinClamp (x.map f) (some mw) = x.map (fun v => min (f v) mw) := by
  cases x <;> rfl

theorem jsMinClamp_map_none (x : Option ℚ) (f : ℚ → ℚ) :
    jsMinClamp (x.map f) none = x.map f := by
  cases x <;> rfl

/-- C5: responsive srcset candidate widths are clamped to the intrinsic
width.  With densities and a defined target width, each candidate's
`maxTargetWidth` is `min(round(targetWidth * density), src.width)` for an
`ImageMetadata` src and unclamped `round(targetWidth * density)` for a
string src (`NaN` propagating through unparseable densities); with
`widths` (and, as in the code's `else if`, no densities), each candidate's
`maxTargetWidth` is `min(requestedWidth, src.width)` (no clamp for a
string src) and its descriptor is the requested width followed by `w`;
with neither densities nor widths the result is the empty list. -/
theorem getSrcSet_candidate_clamping (options : Transform) :
    (∀ m ds tw, options.src = some (SrcVal.meta m) → options.densities = some ds →
        (getTargetDimensions options).1 = some tw →
        getSrcSetAllWidths options
          = (sortedDensityValues ds).map (fun d =>
              { maxTargetWidth := (d).map (fun dv => min (((jsRound (tw * dv) : ℤ) : ℚ)) m.width)
                descriptor := jsNumKey d ++ "x" }))
    ∧ (∀ s ds tw, options.src = some (SrcVal.str s) → options.densities = some ds →
        (getTargetDimensions options).1 = some tw →
        getSrcSetAllWidths options
          = (sortedDensityValues ds).map (fun d =>
              { maxTargetWidth := (d).map (fun dv => ((jsRound (tw * dv) : ℤ) : ℚ))
                descriptor := jsNumKey d ++ "x" }))
    ∧ (∀ m ws, options.src = some (SrcVal.meta m) → options.densities = none →
        options.widths = some ws →
        getSrcSetAllWidths options
          = ws.map (fun w => { maxTargetWidth := some (min w m.width)
                               descriptor := jsNumToString w ++ "w" }))
    ∧ (∀ s ws, options.src = some (SrcVal.str s) → options.densities = none →
        options.widths = some ws →
        getSrcSetAllWidths options
          = ws.map (fun w => { maxTargetWidth := some w
                               descriptor := jsNumToString w ++ "w" }))
    ∧ (options.densities = none → options.widths = none → getSrcSetAllWidths options = [])
    ∧ (∀ s, options.src = some (SrcVal.str s) → options.densities = none →
        options.widths = none → getSrcSet options = some [])
    ∧ (∀ m, options.src = some (SrcVal.meta m) → options.densities = none →
        options.widths = none → getSrcSet options = some []) := by
  refine ⟨?_, ?_, ?_, ?_, ?_, ?_, ?_⟩
  · intro m ds tw hsrc hds htw
    unfold getSrcSetAllWidths
    rw [hds, htw]
    simp only [srcMaxWidth, hsrc, jsMinClamp_map_some]
  · intro s ds tw hsrc hds htw
    unfold getSrcSetAllWidths
    rw [hds, htw]
    simp only [srcMaxWidth, hsrc, jsMinClamp_map_none]
  · intro m ws hsrc hds hws
    unfold getSrcSetAllWidths
    rw [hds, hws]
    simp only [srcMaxWidth, hsrc, jsMinClamp]
  · intro s ws hsrc hds hws
    unfold getSrcSetAllWidths
    rw [hds, hws]
    simp only [srcMaxWidth, hsrc, jsMinClamp]
  · intro hds hws
    unfold getSrcSetAllWidths
    rw [hds, hws]
  · intro s hsrc hds hws
    unfold getSrcSet
    rw [hsrc]
    simp only [getSrcSetAllWidths, hds, hws, List.map_nil]
  · intro m hsrc hds hws
    unfold getSrcSet
    rw [hsrc]
    simp only [getSrcSetAllWidths, hds, hws, List.map_nil]

/-- Concrete record for the clamping claim: a 500-wide metadata src with
requested widths `[300, 800]`. -/
def exWidthsOpts : Transform :=
  { src := some (SrcVal.meta { src := "x", width := 500, height := 400, format := "png" }),
    widths := some [300, 800] }

/-- Witness for C5: the clamping theorem applied to `exWidthsOpts`, where
the 300 candidate stays 300 and the 800 candidate is clamped to the
intrinsic 500. -/
theorem getSrcSet_candidate_clamping_witness :
    ((exWidthsOpts).src
        = some (SrcVal.meta { src := "x", width := 500, height := 400, format := "png" })
      ∧ (exWidthsOpts).densities = none ∧ (exWidthsOpts).widths = some [300, 800])
    ∧ getSrcSetAllWidths exWidthsOpts
        = ([300, 800] : List ℚ).map (fun w =>
            { maxTargetWidth := some (min w 500), descriptor := jsNumToString w ++ "w" })
    ∧ ([300, 800] : List ℚ).map (fun w =>
          ({ maxTargetWidth := some (min w 500),
             descriptor := jsNumToString w ++ "w" } : SrcSetCandidate))
        = [{ maxTargetWidth := some 300, descriptor := "300w" },
           { maxTargetWidth := some 500, descriptor := "800w" }] := by
  refine ⟨⟨rfl, rfl, rfl⟩, ?_, ?_⟩
  · exact (getSrcSet_candidate_clamping exWidthsOpts).2.2.1
      { src := "x", width := 500, height := 400, format := "png" } [300, 800] rfl rfl rfl
  · decide

/-- C4 (amended): dimension inference preserves the aspect ratio.  For an
`ImageMetadata` src with positive intrinsic dimensions: if a non-zero
height is given and no width, the returned width is
`round(height * src.width / src.height)`; if a non-zero width is given
and no height, the returned height is
`round(width * src.height / src.width)`; if neither is given the
intrinsic dimensions are returned; and for a string src the given width
and height are returned unchanged.  (A given but zero dimension is falsy
in the code, hence the non-zero provisos.) -/
theorem getTargetDimensions_aspect (options : Transform) :
    (∀ m h, options.src = some (SrcVal.meta m) → 0 < m.width → 0 < m.height →
        options.height = some h → h ≠ 0 → options.width = none →
        getTargetDimensions options
          = (some ((jsRound (h * m.width / m.height) : ℤ) : ℚ), some h))
    ∧ (∀ m w, options.src = some (SrcVal.meta m) → 0 < m.width → 0 < m.height →
        options.width = some w → w ≠ 0 → options.height = none →
        getTargetDimensions options
          = (some w, some ((jsRound (w * m.height / m.width) : ℤ) : ℚ)))
    ∧ (∀ m, options.src = some (SrcVal.meta m) → 0 < m.width → 0 < m.height →
        options.width = none → options.height = none →
        getTargetDimensions options = (some m.width, some m.height))
    ∧ (∀ s, options.src = some (SrcVal.str s) →
        getTargetDimensions options = (options.width, options.height)) := by
  refine ⟨?_, ?_, ?_, ?_⟩
  · intro m h hsrc hwp hhp hh hh0 hw
    unfold getTargetDimensions
    rw [hsrc, hw, hh]
    have ht : numTruthy (some h) = true := by simp [numTruthy, hh0]
    simp only [numTruthy, ht, Bool.not_false, Bool.and_self, if_pos, decide_not]
    rw [if_pos (by simp [hh0])]
    have harith : h * (m.width / m.height) = h * m.width / m.height := by
      rw [mul_div_assoc]
    simp [Option.getD, harith]
  · intro m w hsrc hwp hhp hw hw0 hh
    unfold getTargetDimensions
    rw [hsrc, hw, hh]
    have harith : w / (m.width / m.height) = w * m.height / m.width := by
      rw [div_div_eq_mul_div]
    simp [numTruthy, hw0, Option.getD, harith]
  · intro m hsrc hwp hhp hw hh
    unfold getTargetDimensions
    rw [hsrc, hw, hh]
    simp [numTruthy]
  · intro s hsrc
    unfold getTargetDimensions
    rw [hsrc]

/-- Witness for C4: a 100 by 50 metadata src with only `height = 30`
given; the inferred width is `round(30 * 100 / 50) = 60`. -/
theorem getTargetDimensions_aspect_witness :
    getTargetDimensions { src := some (SrcVal.meta { src := "x", width := 100, height := 50,
                                                     format := "png" }),
                          height := some 30 }
        = (some ((jsRound ((30 : ℚ) * 100 / 50) : ℤ) : ℚ), some 30)
    ∧ (jsRound ((30 : ℚ) * 100 / 50) : ℤ) = 60 := by
  constructor
  · exact (getTargetDimensions_aspect
      { src := some (SrcVal.meta { src := "x", width := 100, height := 50, format := "png" }),
        height := some 30 }).1
      { src := "x", width := 100, height := 50, format := "png" } 30
      rfl (by norm_num) (by norm_num) rfl (by norm_num) rfl
  · have h0 : ((30 : ℚ) * 100 / 50) = 60 := by norm_num
    rw [h0]
    decide

/-- Counterexample to C4 as frozen: with only `height = 0` given (a
present height), the code's truthiness test sends it to the
neither-dimension branch and returns the intrinsic `(100, 50)`, not the
claimed `(round(0 * 100 / 50), 0) = (0, 0)`. -/
theorem getTargetDimensions_aspect_cex :
    getTargetDimensions { src := some (SrcVal.meta { src := "x", width := 100, height := 50,
                                                     format := "png" }),
                          height := some 0 }
        = (some 100, some 50)
    ∧ (some (100 : ℚ) : Option ℚ) ≠ some ((jsRound ((0 : ℚ) * 100 / 50) : ℤ) : ℚ) := by
  constructor
  · decide
  · have h0 : ((0 : ℚ) * 100 / 50) = 0 := by norm_num
    rw [h0]
    decide

/-- Does a `validateOptions` outcome consist of a raised `AstroError`? -/
def isAstroError : Except ServiceError Transform → Bool
  | Except.error (ServiceError.astro _) => true
  | _ => false

theorem probeDimensions_error (imageInfo : String → Option (ℚ × ℚ)) (options : Transform)
    (s : String) (url : Option String) (e : ServiceError)
    (h : probeDimensions imageInfo options s url = Except.error e) :
    (∃ m, e = ServiceError.astro m) ∨ (∃ m, e = ServiceError.typeError m) := by
  unfold probeDimensions at h
  split at h
  · injection h with h
    exact Or.inr ⟨_, h.symm⟩
  · split at h
    · exact Except.noConfusion h
    · injection h with h
      exact Or.inl ⟨_, h.symm⟩

theorem probeDimensions_ok (imageInfo : String → Option (ℚ × ℚ)) (options : Transform)
    (s : String) (url : Option String) (o' : Transform)
    (h : probeDimensions imageInfo options s url = Except.ok o') :
    ∃ w hv, o' = { options with width := some w, height := some hv } := by
  unfold probeDimensions at h
  split at h
  · exact Except.noConfusion h
  · split at h
    · injection h with h
      exact ⟨_, _, h.symm⟩
    · exact Except.noConfusion h

theorem validateSrcStep_error_classify
    (resolveURL : String → Option String → Option String)
    (imageInfo : String → Option (ℚ × ℚ))
    (options : Transform) (config : ServiceConfigRec) (e : ServiceError)
    (h : validateSrcStep resolveURL imageInfo options config = Except.error e) :
    ((∃ m, e = ServiceError.astro m) ∨ (∃ m, e = ServiceError.typeError m))
    ∧ (∀ m, e = ServiceError.typeError m →
        ∃ s, options.src = some (SrcVal.str s)
          ∧ (numTruthy options.width = false ∨ numTruthy options.height = false)) := by
  unfold validateSrcStep at h
  split at h
  · rename_i s heq
    split at h
    · injection h with h
      subst h
      exact ⟨Or.inl ⟨_, rfl⟩, fun m hm => ServiceError.noConfusion hm⟩
    · rename_i hnotbad
      split at h
      · rename_i hdims
        have hdims2 : numTruthy options.width = false ∨ numTruthy options.height = false := by
          simp only [Bool.or_eq_true, Bool.not_eq_true'] at hdims
          exact hdims
        split at h
        · exact ⟨probeDimensions_error _ _ _ _ _ h, fun m hm => ⟨s, heq, hdims2⟩⟩
        · rename_i hA
          split at h
          · exact ⟨probeDimensions_error _ _ _ _ _ h, fun m hm => ⟨s, heq, hdims2⟩⟩
          · rename_i hB
            split at h
            · exact ⟨probeDimensions_error _ _ _ _ _ h, fun m hm => ⟨s, heq, hdims2⟩⟩
            · rename_i hP
              exfalso
              apply hnotbad
              simp only [Bool.not_eq_true] at hA hB hP
              simp only [Bool.and_eq_true, Bool.not_eq_true']
              exact ⟨⟨hA, hB⟩, hP⟩
      · exact Except.noConfusion h
  · split at h
    · exact Except.noConfusion h
    · split at h
      · injection h with h
        subst h
        exact ⟨Or.inl ⟨_, rfl⟩, fun m hm => ServiceError.noConfusion hm⟩
      · exact Except.noConfusion h
  · injection h with h
    subst h
    exact ⟨Or.inl ⟨_, rfl⟩, fun m hm => ServiceError.noConfusion hm⟩
  · injection h with h
    subst h
    exact ⟨Or.inl ⟨_, rfl⟩, fun m hm => ServiceError.noConfusion hm⟩

theorem validateSrcStep_ok_preserves
    (resolveURL : String → Option String → Option String)
    (imageInfo : String → Option (ℚ × ℚ))
    (options : Transform) (config : ServiceConfigRec) (o' : Transform)
    (h : validateSrcStep resolveURL imageInfo options config = Except.ok o') :
    o'.densities = options.densities ∧ o'.widths = options.widths := by
  unfold validateSrcStep at h
  split at h
  · split at h
    · exact Except.noConfusion h
    · split at h
      · split at h
        · obtain ⟨w, hv, ho⟩ := probeDimensions_ok _ _ _ _ _ h
          subst ho
          exact ⟨rfl, rfl⟩
        · split at h
          · obtain ⟨w, hv, ho⟩ := probeDimensions_ok _ _ _ _ _ h
            subst ho
            exact ⟨rfl, rfl⟩
          · split at h
            · obtain ⟨w, hv, ho⟩ := probeDimensions_ok _ _ _ _ _ h
              subst ho
              exact ⟨rfl, rfl⟩
            · exact Except.noConfusion h
      · injection h with h
        subst h
        exact ⟨rfl, rfl⟩
  · split at h
    · injection h with h
      subst h
      exact ⟨rfl, rfl⟩
    · split at h
      · exact Except.noConfusion h
      · injection h with h
        subst h
        exact ⟨rfl, rfl⟩
  · exact Except.noConfusion h
  · exact Except.noConfusion h

theorem validateFinish_error_astro (opts1 : Transform) (config : ServiceConfigRec)
    (e : ServiceError) (h : validateFinish opts1 config = Except.error e) :
    ∃ msg, e = ServiceError.astro msg := by
  unfold validateFinish at h
  split at h
  · injection h with h
    exact ⟨_, h.symm⟩
  · exact Except.noConfusion h

theorem validateFinish_both_error (opts1 : Transform) (config : ServiceConfigRec)
    (h1 : (opts1.densities).isSome = true) (h2 : (opts1.widths).isSome = true) :
    validateFinish opts1 config
      = Except.error (ServiceError.astro "densities and widths cannot be used together") := by
  unfold validateFinish
  rw [if_pos ⟨h1, h2⟩]

/-- Does a `validateOptions` outcome consist of a normal (non-throwing)
return? -/
def isOkResult : Except ServiceError Transform → Bool
  | Except.ok _ => true
  | Except.error _ => false

/-- C3 (amended): `validateOptions` raises errors as follows.  It raises
an `AstroError` when `src` is missing (falsy), when `src` is a string
that is neither an absolute URL, a bundled asset path, nor a public
asset path, and when `src` is neither a string nor an `ImageMetadata`
object; supplying both `densities` and `widths` always prevents a normal
return (though the error raised may be pre-empted by a URL `TypeError`);
every error it raises is either an `AstroError` or the `TypeError`
thrown by the uncaught `new URL(...)` constructor — in particular the
`assert.ok` assertion never fires; and that `TypeError` can only arise
when `src` is a string and a dimension is missing, i.e. inside the
dimension-inference block. -/
theorem validateOptions_astro_errors
    (resolveURL : String → Option String → Option String)
    (imageInfo : String → Option (ℚ × ℚ))
    (options : Transform) (config : ServiceConfigRec) :
    ((srcTruthy options.src = false
        ∨ (∃ s, options.src = some (SrcVal.str s) ∧ isAbsoluteURL s = false
            ∧ isBundledAsset config.assets s = false ∧ isPublicAsset s = false)
        ∨ (∃ t b, options.src = some (SrcVal.other t b))) →
      isAstroError (validateOptions resolveURL imageInfo options config) = true)
    ∧ (((options.densities).isSome = true ∧ (options.widths).isSome = true) →
        isOkResult (validateOptions resolveURL imageInfo options config) = false)
    ∧ (∀ e, validateOptions resolveURL imageInfo options config = Except.error e →
        e ≠ ServiceError.assertionFailure
        ∧ ((∃ m, e = ServiceError.astro m) ∨ (∃ m, e = ServiceError.typeError m)))
    ∧ (∀ m, validateOptions resolveURL imageInfo options config
          = Except.error (ServiceError.typeError m) →
        ∃ s, options.src = some (SrcVal.str s)
          ∧ (numTruthy options.width = false ∨ numTruthy options.height = false)) := by
  refine ⟨?_, ?_, ?_, ?_⟩
  · intro hcond
    unfold validateOptions
    by_cases hcfg : (config.publicDir = "" ∨ config.assets = "" ∨ config.outDir = "")
    · rw [if_pos hcfg]
      rfl
    · rw [if_neg hcfg]
      by_cases hsrcT : srcTruthy options.src = false
      · rw [if_pos hsrcT]
        rfl
      · rw [if_neg hsrcT]
        rcases hcond with h1 | ⟨s, hs, ha, hb, hp⟩ | ⟨t, b, hob⟩
        · exact absurd h1 hsrcT
        · have hstep : validateSrcStep resolveURL imageInfo options config
              = Except.error
                  (ServiceError.astro ("Local image not correctly imported: " ++ s)) := by
            unfold validateSrcStep
            simp only [hs]
            rw [if_pos (by simp [ha, hb, hp])]
          simp only [hstep]
          rfl
        · have hstep : validateSrcStep resolveURL imageInfo options config
              = Except.error (ServiceError.astro
                  ("Expected src to be of type string | ImageMetadata, but got "
                    ++ t ++ " instead")) := by
            unfold validateSrcStep
            simp only [hob]
          simp only [hstep]
          rfl
  · intro hdw
    unfold validateOptions
    by_cases hcfg : (config.publicDir = "" ∨ config.assets = "" ∨ config.outDir = "")
    · rw [if_pos hcfg]
      rfl
    · rw [if_neg hcfg]
      by_cases hsrcT : srcTruthy options.src = false
      · rw [if_pos hsrcT]
        rfl
      · rw [if_neg hsrcT]
        rcases hstep : validateSrcStep resolveURL imageInfo options config with e1 | o1
        · rfl
        · simp only []
          obtain ⟨hdp, hwp⟩ := validateSrcStep_ok_preserves _ _ _ _ _ hstep
          rw [validateFinish_both_error o1 config (by rw [hdp]; exact hdw.1)
            (by rw [hwp]; exact hdw.2)]
          rfl
  · intro e he
    unfold validateOptions at he
    by_cases hcfg : (config.publicDir = "" ∨ config.assets = "" ∨ config.outDir = "")
    · rw [if_pos hcfg] at he
      injection he with he
      subst he
      exact ⟨fun hc => ServiceError.noConfusion hc, Or.inl ⟨_, rfl⟩⟩
    · rw [if_neg hcfg] at he
      by_cases hsrcT : srcTruthy options.src = false
      · rw [if_pos hsrcT] at he
        injection he with he
        subst he
        exact ⟨fun hc => ServiceError.noConfusion hc, Or.inl ⟨_, rfl⟩⟩
      · rw [if_neg hsrcT] at he
        rcases hstep : validateSrcStep resolveURL imageInfo options config with e1 | o1
        · simp only [hstep] at he
          injection he with he
          subst he
          obtain ⟨hcls, _⟩ := validateSrcStep_error_classify _ _ _ _ _ hstep
          refine ⟨?_, hcls⟩
          rcases hcls with ⟨m, hm⟩ | ⟨m, hm⟩ <;> subst hm <;>
            exact fun hc => ServiceError.noConfusion hc
        · simp only [hstep] at he
          obtain ⟨msg, hmsg⟩ := validateFinish_error_astro _ _ _ he
          subst hmsg
          exact ⟨fun hc => ServiceError.noConfusion hc, Or.inl ⟨_, rfl⟩⟩
  · intro m hm
    unfold validateOptions at hm
    by_cases hcfg : (config.publicDir = "" ∨ config.assets = "" ∨ config.outDir = "")
    · rw [if_pos hcfg] at hm
      injection hm with hm
      exact ServiceError.noConfusion hm
    · rw [if_neg hcfg] at hm
      by_cases hsrcT : srcTruthy options.src = false
      · rw [if_pos hsrcT] at hm
        injection hm with hm
        exact ServiceError.noConfusion hm
      · rw [if_neg hsrcT] at hm
        rcases hstep : validateSrcStep resolveURL imageInfo options config with e1 | o1
        · simp only [hstep] at hm
          injection hm with hm
          subst hm
          obtain ⟨_, htyp⟩ := validateSrcStep_error_classify _ _ _ _ _ hstep
          exact htyp m rfl
        · simp only [hstep] at hm
          obtain ⟨msg, hmsg⟩ := validateFinish_error_astro _ _ _ hm
          exact ServiceError.noConfusion hmsg

/-- Witness for C3: a missing `src` produces an `AstroError`, and a
`densities`+`widths` conflict prevents a normal return, under a
well-formed integration config. -/
theorem validateOptions_astro_errors_witness :
    (srcTruthy (none : Option SrcVal) = false)
    ∧ isAstroError (validateOptions (fun _ _ => none) (fun _ => none) { src := none }
        { publicDir := "p", assets := "_astro", outDir := "o" }) = true
    ∧ isOkResult (validateOptions (fun _ _ => none) (fun _ => none)
        { src := some (SrcVal.meta { src := "x", width := 10, height := 10, format := "png" }),
          densities := some [Density.num 2], widths := some [100] }
        { publicDir := "p", assets := "_astro", outDir := "o" }) = false := by
  refine ⟨by decide, ?_, ?_⟩
  · exact (validateOptions_astro_errors (fun _ _ => none) (fun _ => none) { src := none }
      { publicDir := "p", assets := "_astro", outDir := "o" }).1 (Or.inl (by decide))
  · exact (validateOptions_astro_errors (fun _ _ => none) (fun _ => none)
      { src := some (SrcVal.meta { src := "x", width := 10, height := 10, format := "png" }),
        densities := some [Density.num 2], widths := some [100] }
      { publicDir := "p", assets := "_astro", outDir := "o" }).2.1 ⟨rfl, rfl⟩

/-- A URL-resolution oracle reflecting the WHATWG `new URL` constructor
on the inputs of interest: `"http://"` parses its scheme as the special
scheme `http` but then finds an empty host, so the constructor throws a
`TypeError` (modelled as `none`); the other inputs used here resolve
normally. -/
def exBadURLResolve : String → Option String → Option String :=
  fun input _ => if input = "http://" then none else some input

/-- Counterexample for C3 as frozen: the string src `"http://"` passes
the absolute-URL regex, and with both dimensions missing the code
reaches `new URL("http://")`, which throws a `TypeError` — not an
`AstroError`. -/
theorem validateOptions_astro_errors_cex :
    validateOptions exBadURLResolve (fun _ => none)
      { src := some (SrcVal.str "http://") }
      { publicDir := "p", assets := "_astro", outDir := "o" }
      = Except.error (ServiceError.typeError ("Invalid URL: " ++ "http://"))
    ∧ isAstroError (validateOptions exBadURLResolve (fun _ => none)
        { src := some (SrcVal.str "http://") }
        { publicDir := "p", assets := "_astro", outDir := "o" }) = false := by
  constructor
  · rfl
  · rfl

theorem validateFinish_ok_eq (opts1 : Transform) (config : ServiceConfigRec)
    (hnot : ¬((opts1.densities).isSome = true ∧ (opts1.widths).isSome = true)) :
    validateFinish opts1 config = Except.ok
      { opts1 with
        width := if numTruthy opts1.width then
            some ((jsRound ((opts1.width).getD 0) : ℤ) : ℚ)
          else opts1.width,
        height := if numTruthy opts1.height then
            some ((jsRound ((opts1.height).getD 0) : ℤ) : ℚ)
          else opts1.height,
        format := if strTruthy opts1.format = false then
            some ((config.defaultFormat).getD "avif")
          else if opts1.format = some "jpg" then some "jpeg"
          else opts1.format } := by
  unfold validateFinish
  rw [if_neg hnot]
  by_cases hW : numTruthy opts1.width = true <;>
    by_cases hH : numTruthy opts1.height = true <;>
    by_cases hF : strTruthy opts1.format = false <;>
    simp [hW, hH, hF] <;>
    by_cases hJ : opts1.format = some "jpg" <;>
    simp [hJ]

theorem validateOptions_ok_shape
    (resolveURL : String → Option String → Option String)
    (imageInfo : String → Option (ℚ × ℚ))
    (options : Transform) (config : ServiceConfigRec) (t' : Transform)
    (h : validateOptions resolveURL imageInfo options config = Except.ok t') :
    ∃ opts1, validateSrcStep resolveURL imageInfo options config = Except.ok opts1
      ∧ t' = { opts1 with
          width := if numTruthy opts1.width then
              some ((jsRound ((opts1.width).getD 0) : ℤ) : ℚ)
            else opts1.width,
          height := if numTruthy opts1.height then
              some ((jsRound ((opts1.height).getD 0) : ℤ) : ℚ)
            else opts1.height,
          format := if strTruthy opts1.format = false then
              some ((config.defaultFormat).getD "avif")
            else if opts1.format = some "jpg" then some "jpeg"
            else opts1.format } := by
  unfold validateOptions at h
  by_cases hcfg : (config.publicDir = "" ∨ config.assets = "" ∨ config.outDir = "")
  · rw [if_pos hcfg] at h
    exact Except.noConfusion h
  · rw [if_neg hcfg] at h
    by_cases hsrcT : srcTruthy options.src = false
    · rw [if_pos hsrcT] at h
      exact Except.noConfusion h
    · rw [if_neg hsrcT] at h
      rcases hstep : validateSrcStep resolveURL imageInfo options config with e1 | o1
      · simp only [hstep] at h
        exact Except.noConfusion h
      · simp only [hstep] at h
        refine ⟨o1, rfl, ?_⟩
        by_cases hboth : ((o1.densities).isSome = true ∧ (o1.widths).isSome = true)
        · rw [validateFinish_both_error o1 config hboth.1 hboth.2] at h
          exact Except.noConfusion h
        · rw [validateFinish_ok_eq o1 config hboth] at h
          injection h with h
          exact h.symm

theorem validateSrcStep_ok_format
    (resolveURL : String → Option String → Option String)
    (imageInfo : String → Option (ℚ × ℚ))
    (options : Transform) (config : ServiceConfigRec) (o1 : Transform)
    (h : validateSrcStep resolveURL imageInfo options config = Except.ok o1)
    (hnotsvg : ∀ m, options.src = some (SrcVal.meta m) →
      ¬(m.format = "svg" ∧ options.format = none)) :
    o1.format = options.format := by
  unfold validateSrcStep at h
  split at h
  · split at h
    · exact Except.noConfusion h
    · split at h
      · split at h
        · obtain ⟨w, hv, ho⟩ := probeDimensions_ok _ _ _ _ _ h
          subst ho
          rfl
        · split at h
          · obtain ⟨w, hv, ho⟩ := probeDimensions_ok _ _ _ _ _ h
            subst ho
            rfl
          · split at h
            · obtain ⟨w, hv, ho⟩ := probeDimensions_ok _ _ _ _ _ h
              subst ho
              rfl
            · exact Except.noConfusion h
      · injection h with h
        subst h
        rfl
  · rename_i m heq
    split at h
    · rename_i hcond
      exact absurd hcond (hnotsvg m heq)
    · split at h
      · exact Except.noConfusion h
      · injection h with h
        subst h
        rfl
  · exact Except.noConfusion h
  · exact Except.noConfusion h

/-- C6: format validation and normalisation in `validateOptions`.  For an
`ImageMetadata` src of format `svg` with no requested output format, the
output format is `svg`; for a non-`svg` metadata src, requesting `svg`
raises an error (an `AstroError`); when no format is requested (and the
src is not an `svg` metadata, the exception stated in the first clause)
the format becomes the configured `defaultFormat`, which defaults to
`avif`; and a requested format of `jpg` is normalised to `jpeg`. -/
theorem validateOptions_format_rules
    (resolveURL : String → Option String → Option String)
    (imageInfo : String → Option (ℚ × ℚ))
    (options : Transform) (config : ServiceConfigRec) :
    (∀ m t', options.src = some (SrcVal.meta m) → m.format = "svg" →
        options.format = none →
        validateOptions resolveURL imageInfo options config = Except.ok t' →
        t'.format = some "svg")
    ∧ (∀ m, options.src = some (SrcVal.meta m) → m.format ≠ "svg" →
        options.format = some "svg" →
        isAstroError (validateOptions resolveURL imageInfo options config) = true)
    ∧ (∀ t', options.format = none →
        (∀ m, options.src = some (SrcVal.meta m) → m.format ≠ "svg") →
        validateOptions resolveURL imageInfo options config = Except.ok t' →
        t'.format = some ((config.defaultFormat).getD "avif"))
    ∧ (∀ t', options.format = some "jpg" →
        validateOptions resolveURL imageInfo options config = Except.ok t' →
        t'.format = some "jpeg") := by
  refine ⟨?_, ?_, ?_, ?_⟩
  · intro m t' hsrc hmfmt hfmt h
    obtain ⟨opts1, hstep, hshape⟩ := validateOptions_ok_shape _ _ _ _ _ h
    have hstep2 : validateSrcStep resolveURL imageInfo options config
        = Except.ok { options with format := some "svg" } := by
      unfold validateSrcStep
      simp only [hsrc]
      rw [if_pos ⟨hmfmt, hfmt⟩]
    rw [hstep2] at hstep
    injection hstep with hstep
    subst hstep
    rw [hshape]
    simp [strTruthy]
  · intro m hsrc hm hfmt
    have hstep2 : validateSrcStep resolveURL imageInfo options config
        = Except.error (ServiceError.astro
            ("Cannot transform from " ++ m.format ++ " to svg")) := by
      unfold validateSrcStep
      simp only [hsrc]
      rw [if_neg (by rintro ⟨h1, _⟩; exact hm h1), if_pos ⟨hm, hfmt⟩]
    unfold validateOptions
    by_cases hcfg : (config.publicDir = "" ∨ config.assets = "" ∨ config.outDir = "")
    · rw [if_pos hcfg]
      rfl
    · rw [if_neg hcfg]
      rw [if_neg (by simp [srcTruthy, hsrc])]
      simp only [hstep2]
      rfl
  · intro t' hfmt hnotsvg h
    obtain ⟨opts1, hstep, hshape⟩ := validateOptions_ok_shape _ _ _ _ _ h
    have hfmt1 : opts1.format = options.format := by
      refine validateSrcStep_ok_format _ _ _ _ _ hstep ?_
      rintro m hm ⟨h1, _⟩
      exact hnotsvg m hm h1
    rw [hshape]
    simp [hfmt1, hfmt, strTruthy]
  · intro t' hfmt h
    obtain ⟨opts1, hstep, hshape⟩ := validateOptions_ok_shape _ _ _ _ _ h
    have hfmt1 : opts1.format = options.format := by
      refine validateSrcStep_ok_format _ _ _ _ _ hstep ?_
      rintro m hm ⟨_, h2⟩
      rw [hfmt] at h2
      exact Option.noConfusion h2
    rw [hshape]
    simp [hfmt1, hfmt, strTruthy]

deriving instance DecidableEq for Except

/-- Witness for C6: an SVG metadata src with no requested format keeps
`svg`; requesting `svg` on a PNG raises an `AstroError`; a `png` source
with no requested format gets the `avif` default; a requested `jpg`
becomes `jpeg`. -/
theorem validateOptions_format_rules_witness :
    (validateOptions (fun _ _ => none) (fun _ => none)
        { src := some (SrcVal.meta { src := "x", width := 10, height := 10, format := "svg" }) }
        { publicDir := "p", assets := "_astro", outDir := "o" }
      = Except.ok { src := some (SrcVal.meta { src := "x", width := 10, height := 10,
                                               format := "svg" }),
                    format := some "svg" })
    ∧ ({ src := some (SrcVal.meta { src := "x", width := 10, height := 10, format := "svg" }),
         format := some "svg" : Transform }).format = some "svg"
    ∧ isAstroError (validateOptions (fun _ _ => none) (fun _ => none)
        { src := some (SrcVal.meta { src := "x", width := 10, height := 10, format := "png" }),
          format := some "svg" }
        { publicDir := "p", assets := "_astro", outDir := "o" }) = true
    ∧ ({ src := some (SrcVal.meta { src := "x", width := 10, height := 10, format := "png" }),
         format := some "avif" : Transform }).format
        = some (((none : Option String)).getD "avif")
    ∧ (validateOptions (fun _ _ => none) (fun _ => none)
        { src := some (SrcVal.meta { src := "x", width := 10, height := 10, format := "png" }),
          format := some "jpg" }
        { publicDir := "p", assets := "_astro", outDir := "o" }
      = Except.ok { src := some (SrcVal.meta { src := "x", width := 10, height := 10,
                                               format := "png" }),
                    format := some "jpeg" })
    ∧ ({ src := some (SrcVal.meta { src := "x", width := 10, height := 10, format := "png" }),
         format := some "jpeg" : Transform }).format = some "jpeg" := by
  refine ⟨by decide, ?_, ?_, by decide, by decide, ?_⟩
  · exact (validateOptions_format_rules (fun _ _ => none) (fun _ => none)
      { src := some (SrcVal.meta { src := "x", width := 10, height := 10, format := "svg" }) }
      { publicDir := "p", assets := "_astro", outDir := "o" }).1
      { src := "x", width := 10, height := 10, format := "svg" }
      { src := some (SrcVal.meta { src := "x", width := 10, height := 10, format := "svg" }),
        format := some "svg" }
      rfl rfl rfl (by decide)
  · exact (validateOptions_format_rules (fun _ _ => none) (fun _ => none)
      { src := some (SrcVal.meta { src := "x", width := 10, height := 10, format := "png" }),
        format := some "svg" }
      { publicDir := "p", assets := "_astro", outDir := "o" }).2.1
      { src := "x", width := 10, height := 10, format := "png" }
      rfl (by decide) rfl
  · exact (validateOptions_format_rules (fun _ _ => none) (fun _ => none)
      { src := some (SrcVal.meta { src := "x", width := 10, height := 10, format := "png" }),
        format := some "jpg" }
      { publicDir := "p", assets := "_astro", outDir := "o" }).2.2.2
      { src := some (SrcVal.meta { src := "x", width := 10, height := 10, format := "png" }),
        format := some "jpeg" }
      rfl (by decide)

/-- C10 (amended): postcondition of successful validation.  Whenever
`validateOptions` returns without throwing, the returned record's `width`
and `height`, when present, are integers (a truthy dimension has been
passed through `Math.round`, and a falsy present one can only be `0`);
its `format` is defined (never `undefined`); and — provided the
configured `defaultFormat` (whose own default is `avif`) is not the
string `jpg` itself — its format is never the string `jpg`. -/
theorem validateOptions_postcondition
    (resolveURL : String → Option String → Option String)
    (imageInfo : String → Option (ℚ × ℚ))
    (options : Transform) (config : ServiceConfigRec) (t' : Transform)
    (h : validateOptions resolveURL imageInfo options config = Except.ok t') :
    (∀ w, t'.width = some w → w.den = 1)
    ∧ (∀ hv, t'.height = some hv → hv.den = 1)
    ∧ (t'.format).isSome = true
    ∧ ((config.defaultFormat).getD "avif" ≠ "jpg" → t'.format ≠ some "jpg") := by
  obtain ⟨opts1, hstep, hshape⟩ := validateOptions_ok_shape _ _ _ _ _ h
  subst hshape
  refine ⟨?_, ?_, ?_, ?_⟩
  · intro w hw
    simp only [] at hw
    by_cases hT : numTruthy opts1.width = true
    · rw [if_pos hT] at hw
      injection hw with hw
      subst hw
      exact Rat.den_intCast _
    · rw [if_neg hT] at hw
      unfold numTruthy at hT
      rcases hwd : opts1.width with _ | v
      · rw [hwd] at hw
        exact Option.noConfusion hw
      · rw [hwd] at hT hw
        injection hw with hw
        subst hw
        simp only [decide_eq_true_eq] at hT
        push_neg at hT
        rw [hT]
        rfl
  · intro hv hh
    simp only [] at hh
    by_cases hT : numTruthy opts1.height = true
    · rw [if_pos hT] at hh
      injection hh with hh
      subst hh
      exact Rat.den_intCast _
    · rw [if_neg hT] at hh
      unfold numTruthy at hT
      rcases hhd : opts1.height with _ | v
      · rw [hhd] at hh
        exact Option.noConfusion hh
      · rw [hhd] at hT hh
        injection hh with hh
        subst hh
        simp only [decide_eq_true_eq] at hT
        push_neg at hT
        rw [hT]
        rfl
  · simp only []
    rcases hfd : opts1.format with _ | f
    · simp [hfd, strTruthy]
    · by_cases hJ : f = "jpg" <;> by_cases hE : f = "" <;>
        simp [hfd, strTruthy, hJ, hE]
  · intro hdef
    simp only []
    rcases hfd : opts1.format with _ | f
    · simp [hfd, strTruthy]
      exact hdef
    · by_cases hJ : f = "jpg" <;> by_cases hE : f = "" <;>
        simp [hfd, strTruthy, hJ, hE] <;> exact hdef

/-- Concrete record for the postcondition claim: a PNG metadata src with
`width = 5` and `format = webp`. -/
def exPostOpts : Transform :=
  { src := some (SrcVal.meta { src := "x", width := 10, height := 10, format := "png" }),
    width := some 5, format := some "webp" }

/-- The validated form of `exPostOpts` under a config with no
`defaultFormat`. -/
def exPostResult : Transform :=
  { src := some (SrcVal.meta { src := "x", width := 10, height := 10, format := "png" }),
    width := some 5, format := some "webp" }

/-- Witness for C10: the postcondition theorem applied to `exPostOpts`
under a well-formed config. -/
theorem validateOptions_postcondition_witness :
    (validateOptions (fun _ _ => none) (fun _ => none) exPostOpts
        { publicDir := "p", assets := "_astro", outDir := "o" } = Except.ok exPostResult)
    ∧ (5 : ℚ).den = 1
    ∧ (exPostResult.format).isSome = true
    ∧ exPostResult.format ≠ some "jpg" := by
  have hok : validateOptions (fun _ _ => none) (fun _ => none) exPostOpts
      { publicDir := "p", assets := "_astro", outDir := "o" } = Except.ok exPostResult := by
    decide
  have T := validateOptions_postcondition (fun _ _ => none) (fun _ => none) exPostOpts
    { publicDir := "p", assets := "_astro", outDir := "o" } exPostResult hok
  exact ⟨hok, T.1 5 rfl, T.2.2.1, T.2.2.2 (by decide)⟩

/-- Counterexample to C10 as frozen: with the integration configured with
`defaultFormat = 'jpg'` and no requested format, the destructuring
default path skips the `jpg` → `jpeg` normalisation and the validated
record's format is the string `jpg`. -/
theorem validateOptions_postcondition_cex :
    Except.map Transform.format (validateOptions (fun _ _ => none) (fun _ => none)
        { src := some (SrcVal.meta { src := "x", width := 10, height := 10, format := "png" }) }
        { publicDir := "p", assets := "_astro", outDir := "o", defaultFormat := some "jpg" })
      = Except.ok (some "jpg") := by
  decide

theorem lookup_filter_of_key {α : Type} (k : String) (f : String → Bool) (hfk : f k = true) :
    ∀ (l : List (String × α)), (l.filter (fun p => f p.1)).lookup k = l.lookup k := by
  intro l
  induction l with
  | nil => rfl
  | cons a l ih =>
    obtain ⟨ka, va⟩ := a
    simp only [List.filter_cons]
    by_cases hka : k = ka
    · subst hka
      simp [hfk, List.lookup, ih]
    · have hbeq : (k == ka) = false := by simp [hka]
      cases hf : f ka
      · simp [List.lookup, hbeq, ih]
      · simp [List.lookup, hbeq, ih]

theorem lookup_eq_none_of_keys {α : Type} (k : String) :
    ∀ (l : List (String × α)), (∀ p ∈ l, p.1 ≠ k) → l.lookup k = none := by
  intro l
  induction l with
  | nil => intro _; rfl
  | cons a l ih =>
    intro h
    obtain ⟨ka, va⟩ := a
    have hk : ka ≠ k := h (ka, va) (by simp)
    have hbeq : (k == ka) = false := by simp [Ne.symm hk]
    simp [List.lookup, hbeq]
    intro a b hab hka
    exact h (a, b) (by simp [hab]) hka.symm

theorem lookup_optEntry_self (k : String) (o : Option JsVal) :
    (optEntry k o).lookup k = o := by
  cases o <;> simp [optEntry, List.lookup]

theorem lookup_optEntry_ne {k k' : String} (h : k ≠ k') (o : Option JsVal) :
    (optEntry k' o).lookup k = none := by
  have hbeq : (k == k') = false := by simp [h]
  cases o <;> simp [optEntry, List.lookup, hbeq]

theorem lookup_filtered_none (t : Transform) (k : String) (hk : k ∈ destructuredNames) :
    ((transformProps t).filter (fun p => !(destructuredNames).contains p.1)).lookup k
      = none := by
  apply lookup_eq_none_of_keys
  intro p hp
  have hkeep := (List.mem_filter.mp hp).2
  intro hcontra
  rw [hcontra] at hkeep
  simp at hkeep
  exact hkeep hk

theorem extra_lookup_none (t : Transform) (k : String) (hk : k ∈ destructuredNames)
    (hdisj : ∀ p ∈ t.extra, p.1 ∉ destructuredNames) :
    (t.extra.map (fun p => (p.1, JsVal.str p.2))).lookup k = none := by
  apply lookup_eq_none_of_keys
  intro p hp
  rcases List.mem_map.mp hp with ⟨q, hq, hpq⟩
  intro hcontra
  apply hdisj q hq
  have : p.1 = q.1 := by rw [← hpq]
  rw [← this, hcontra]
  exact hk

theorem transformProps_lookup_loading (t : Transform)
    (hdisj : ∀ p ∈ t.extra, p.1 ∉ destructuredNames) :
    (transformProps t).lookup "loading" = (t.loading).map JsVal.str := by
  have hex := extra_lookup_none t "loading" (by decide) hdisj
  unfold transformProps
  simp [lookup_append, hex, lookup_optEntry_self,
    lookup_optEntry_ne (show ("loading" : String) ≠ "src" by decide),
    lookup_optEntry_ne (show ("loading" : String) ≠ "width" by decide),
    lookup_optEntry_ne (show ("loading" : String) ≠ "height" by decide),
    lookup_optEntry_ne (show ("loading" : String) ≠ "format" by decide),
    lookup_optEntry_ne (show ("loading" : String) ≠ "formats" by decide),
    lookup_optEntry_ne (show ("loading" : String) ≠ "quality" by decide),
    lookup_optEntry_ne (show ("loading" : String) ≠ "densities" by decide),
    lookup_optEntry_ne (show ("loading" : String) ≠ "widths" by decide),
    lookup_optEntry_ne (show ("loading" : String) ≠ "decoding" by decide)]

theorem transformProps_lookup_decoding (t : Transform)
    (hdisj : ∀ p ∈ t.extra, p.1 ∉ destructuredNames) :
    (transformProps t).lookup "decoding" = (t.decoding).map JsVal.str := by
  have hex := extra_lookup_none t "decoding" (by decide) hdisj
  unfold transformProps
  simp [lookup_append, hex, lookup_optEntry_self,
    lookup_optEntry_ne (show ("decoding" : String) ≠ "src" by decide),
    lookup_optEntry_ne (show ("decoding" : String) ≠ "width" by decide),
    lookup_optEntry_ne (show ("decoding" : String) ≠ "height" by decide),
    lookup_optEntry_ne (show ("decoding" : String) ≠ "format" by decide),
    lookup_optEntry_ne (show ("decoding" : String) ≠ "formats" by decide),
    lookup_optEntry_ne (show ("decoding" : String) ≠ "quality" by decide),
    lookup_optEntry_ne (show ("decoding" : String) ≠ "densities" by decide),
    lookup_optEntry_ne (show ("decoding" : String) ≠ "widths" by decide),
    lookup_optEntry_ne (show ("decoding" : String) ≠ "loading" by decide)]

theorem getHTMLAttributes_lookup_width (t : Transform) :
    (getHTMLAttributes t).lookup "width"
      = some (((getTargetDimensions t).1).elim JsVal.undef JsVal.num) := by
  have hf := lookup_filtered_none t "width" (by decide)
  simp only [getHTMLAttributes]
  rw [lookup_append, hf]
  simp [List.lookup]

theorem getHTMLAttributes_lookup_height (t : Transform) :
    (getHTMLAttributes t).lookup "height"
      = some (((getTargetDimensions t).2).elim JsVal.undef JsVal.num) := by
  have hf := lookup_filtered_none t "height" (by decide)
  simp only [getHTMLAttributes]
  rw [lookup_append, hf]
  simp [List.lookup]

theorem getHTMLAttributes_lookup_loading (t : Transform) :
    (getHTMLAttributes t).lookup "loading"
      = some (JsVal.str ((t.loading).getD "lazy")) := by
  have hf := lookup_filtered_none t "loading" (by decide)
  simp only [getHTMLAttributes]
  rw [lookup_append, hf]
  simp [List.lookup]

theorem getHTMLAttributes_lookup_decoding (t : Transform) :
    (getHTMLAttributes t).lookup "decoding"
      = some (JsVal.str ((t.decoding).getD "async")) := by
  have hf := lookup_filtered_none t "decoding" (by decide)
  simp only [getHTMLAttributes]
  rw [lookup_append, hf]
  simp [List.lookup]

/-- C7: HTML attribute emission is a frame property.  Under the JavaScript
object invariant that the extra attributes do not repeat the named option
keys, `getHTMLAttributes` returns every attribute of the options except
`src`, `width`, `height`, `format`, `formats`, `quality`, `densities` and
`widths` unchanged, with `width` and `height` replaced by the values
computed by `getTargetDimensions`, and with `loading` defaulting to
`lazy` and `decoding` defaulting to `async` when not supplied (and kept
as supplied otherwise). -/
theorem getHTMLAttributes_frame (t : Transform)
    (hdisj : ∀ p ∈ t.extra, p.1 ∉ destructuredNames) :
    (∀ k v, k ∉ (["src", "width", "height", "format", "formats", "quality",
          "densities", "widths"] : List String) →
        (transformProps t).lookup k = some v →
        (getHTMLAttributes t).lookup k = some v)
    ∧ (getHTMLAttributes t).lookup "width"
        = some (((getTargetDimensions t).1).elim JsVal.undef JsVal.num)
    ∧ (getHTMLAttributes t).lookup "height"
        = some (((getTargetDimensions t).2).elim JsVal.undef JsVal.num)
    ∧ (t.loading = none →
        (getHTMLAttributes t).lookup "loading" = some (JsVal.str "lazy"))
    ∧ (∀ l, t.loading = some l →
        (getHTMLAttributes t).lookup "loading" = some (JsVal.str l))
    ∧ (t.decoding = none →
        (getHTMLAttributes t).lookup "decoding" = some (JsVal.str "async"))
    ∧ (∀ d, t.decoding = some d →
        (getHTMLAttributes t).lookup "decoding" = some (JsVal.str d)) := by
  refine ⟨?_, getHTMLAttributes_lookup_width t, getHTMLAttributes_lookup_height t,
    ?_, ?_, ?_, ?_⟩
  · intro k v hk hlook
    by_cases hl : k = "loading"
    · subst hl
      rw [transformProps_lookup_loading t hdisj] at hlook
      rcases hld : t.loading with _ | l
      · rw [hld] at hlook
        exact Option.noConfusion hlook
      · rw [hld] at hlook
        injection hlook with hv
        rw [getHTMLAttributes_lookup_loading t, hld]
        simp [← hv]
    · by_cases hd2 : k = "decoding"
      · subst hd2
        rw [transformProps_lookup_decoding t hdisj] at hlook
        rcases hdd : t.decoding with _ | d
        · rw [hdd] at hlook
          exact Option.noConfusion hlook
        · rw [hdd] at hlook
          injection hlook with hv
          rw [getHTMLAttributes_lookup_decoding t, hdd]
          simp [← hv]
      · have hmem : k ∉ destructuredNames := by
          intro hm
          simp only [destructuredNames, List.mem_cons, List.not_mem_nil, or_false] at hm
          rcases hm with h | h | h | h | h | h | h | h | h | h
          · exact hk (by simp [h])
          · exact hk (by simp [h])
          · exact hk (by simp [h])
          · exact hk (by simp [h])
          · exact hk (by simp [h])
          · exact hk (by simp [h])
          · exact hk (by simp [h])
          · exact hk (by simp [h])
          · exact hl h
          · exact hd2 h
        simp only [getHTMLAttributes]
        rw [lookup_append,
          lookup_filter_of_key k (fun s => !(destructuredNames).contains s)
            (by simp [hmem]) (transformProps t),
          hlook]
        rfl
  · intro hld
    rw [getHTMLAttributes_lookup_loading t, hld]
    rfl
  · intro l hld
    rw [getHTMLAttributes_lookup_loading t, hld]
    rfl
  · intro hdd
    rw [getHTMLAttributes_lookup_decoding t, hdd]
    rfl
  · intro d hdd
    rw [getHTMLAttributes_lookup_decoding t, hdd]
    rfl

/-- Concrete record for the frame claim: a string src, both dimensions
given, an extra `alt` attribute and a supplied `decoding`. -/
def exAttrOpts : Transform :=
  { src := some (SrcVal.str "/a.png"), width := some 10, height := some 20,
    decoding := some "sync", extra := [("alt", "hi")] }

/-- Witness for C7: the frame theorem applied to `exAttrOpts`: the `alt`
attribute passes through unchanged, the dimensions come from
`getTargetDimensions`, `loading` defaults to `lazy` and the supplied
`decoding` is kept. -/
theorem getHTMLAttributes_frame_witness :
    (∀ p ∈ (exAttrOpts).extra, p.1 ∉ destructuredNames)
    ∧ (getHTMLAttributes exAttrOpts).lookup "alt" = some (JsVal.str "hi")
    ∧ (getHTMLAttributes exAttrOpts).lookup "width"
        = some (((getTargetDimensions exAttrOpts).1).elim JsVal.undef JsVal.num)
    ∧ (getTargetDimensions exAttrOpts).1 = some 10
    ∧ (getHTMLAttributes exAttrOpts).lookup "loading" = some (JsVal.str "lazy")
    ∧ (getHTMLAttributes exAttrOpts).lookup "decoding" = some (JsVal.str "sync") := by
  have hdisj : ∀ p ∈ (exAttrOpts).extra, p.1 ∉ destructuredNames := by decide
  have T := getHTMLAttributes_frame exAttrOpts hdisj
  refine ⟨hdisj, ?_, T.2.1, by decide, T.2.2.2.1 rfl, T.2.2.2.2.2.2 "sync" rfl⟩
  exact T.1 "alt" (JsVal.str "hi") (by decide) (by decide)

/-- C8: the pure option-handling hooks are deterministic and share no
state across requests.  Threading the module-level environment (the
`qualityTable` constant is its only data binding) through `parseURL`,
`getTargetDimensions`, `getSrcSet` and `getHTMLAttributes`, each hook's
output is the same under any two module states — so it reads no module
state — and each returns the state unchanged — so it writes none; in
particular any two runs on equal inputs produce equal outputs. -/
theorem service_hooks_stateless :
    (∀ st1 st2 : ModuleState, ∀ q : List (String × String),
        (parseURLSt st1 q).1 = (parseURLSt st2 q).1 ∧ (parseURLSt st1 q).2 = st1)
    ∧ (∀ st1 st2 : ModuleState, ∀ t : Transform,
        (getTargetDimensionsSt st1 t).1 = (getTargetDimensionsSt st2 t).1
          ∧ (getTargetDimensionsSt st1 t).2 = st1)
    ∧ (∀ st1 st2 : ModuleState, ∀ t : Transform,
        (getSrcSetSt st1 t).1 = (getSrcSetSt st2 t).1 ∧ (getSrcSetSt st1 t).2 = st1)
    ∧ (∀ st1 st2 : ModuleState, ∀ t : Transform,
        (getHTMLAttributesSt st1 t).1 = (getHTMLAttributesSt st2 t).1
          ∧ (getHTMLAttributesSt st1 t).2 = st1) :=
  ⟨fun _ _ _ => ⟨rfl, rfl⟩, fun _ _ _ => ⟨rfl, rfl⟩,
    fun _ _ _ => ⟨rfl, rfl⟩, fun _ _ _ => ⟨rfl, rfl⟩⟩
